import Mathlib

/-! XMODEM receiver state machine (`src/source/xmodem_receiver.c`)

A shallow embedding of the receiver module.  The file-scope `static` variables of the
C module, together with the two function-local `static` variables of
`xmodem_receive_process`, are collected in the record `Globals`.  The four injected
function pointers are `Option` values (`none` is the null pointer); they act on an
abstract transport world `W`.  Calling a null function pointer is modelled as the
failure `none` of `xmodem_receive_process`.  Every call of a capability made during a
poll is recorded in the `calls` list of the poll outcome.

Runs of polls are `pollSeq`, `statesAfter` and `callsAfter`; sequences of calls of the whole
interface (init, cleanup, setters, polls) are lists of `Op`, run by `runOps`.

`uint32_t` values are natural numbers reduced modulo `2 ^ 32`; `uint8_t` values are
natural numbers reduced modulo `2 ^ 8`.
-/

namespace XmodemReceiver

/-! ## Constants -/

/-- Modelled from the spec: the header `xmodem.h` is not part of the sources; the value of
the control byte SOH is taken from the list of protocol control bytes (0x01). -/
def SOH : Nat := 0x01

/-- Modelled from the spec: control byte EOT (0x04), declared in the missing `xmodem.h`. -/
def EOT : Nat := 0x04

/-- Modelled from the spec: control byte ACK (0x06), declared in the missing `xmodem.h`. -/
def ACK : Nat := 0x06

/-- Modelled from the spec: control byte NAK (0x15), declared in the missing `xmodem.h`. -/
def NAK : Nat := 0x15

/-- Modelled from the spec: control byte ETB (0x17), declared in the missing `xmodem.h`. -/
def ETB : Nat := 0x17

/-- Modelled from the spec: control byte CAN (0x18), declared in the missing `xmodem.h`. -/
def CAN : Nat := 0x18

/-- Number of values of a `uint32_t`. -/
def UINT32_MOD : Nat := 4294967296

/-- Number of values of a `uint8_t`. -/
def UINT8_MOD : Nat := 256

/-- Source line 14: `static const uint32_t READ_BLOCK_TIMEOUT = 60000`. -/
def READ_BLOCK_TIMEOUT : Nat := 60000

/-- Source line 15: `static const uint32_t C_ACK_TIMEOUT = 3000`. -/
def C_ACK_TIMEOUT : Nat := 3000

/-- Source line 16: `static const uint32_t SEND_C_MAX_RETRIES = 5`. -/
def SEND_C_MAX_RETRIES : Nat := 5

/-! ## Data model -/

/-- Modelled from the spec: the enumeration `xmodem_receive_state_t` is declared in the
missing header `xmodem_receiver.h`.  Its enumerators are the fourteen names that
`xmodem_receiver.c` uses, taken to be pairwise distinct values. -/
inductive xmodem_receive_state_t where
  | XMODEM_RECEIVE_INITIAL
  | XMODEM_RECEIVE_SEND_C
  | XMODEM_RECEIVE_WAIT_FOR_ACK
  | XMODEM_RECEIVE_TIMEOUT_ACK
  | XMODEM_RECEIVE_ACK_SUCCESS
  | XMODEM_RECEIVE_ABORT_TRANSFER
  | XMODEM_RECEIVE_UNKNOWN
  | XMODEM_RECEIVE_READ_BLOCK
  | XMODEM_RECEIVE_READ_BLOCK_TIMEOUT
  | XMODEM_RECEIVE_READ_BLOCK_SUCCESS
  | XMODEM_RECEIVE_BLOCK_INVALID
  | XMODEM_RECEIVE_BLOCK_VALID
  | XMODEM_RECEIVE_BLOCK_ACK
  | XMODEM_RECEIVE_TRANSFER_COMPLETE
  deriving DecidableEq, Repr

open xmodem_receive_state_t

/-- Result of one call of the read capability: the returned `bool` and the contents of
`*buffer` and `*returned_size` when the call returns. -/
structure ReadResult where
  ret : Bool
  buffer : Nat
  returned_size : Nat
  deriving DecidableEq, Repr

/-- Result of one call of the write capability: the returned `bool` and the contents of
`*write_status` when the call returns. -/
structure WriteResult where
  ret : Bool
  write_status : Bool
  deriving DecidableEq, Repr

/-- One invocation of an injected capability, with its arguments and what it returned. -/
inductive Call where
  | is_inbound_empty (ret : Bool)
  | is_outbound_full (ret : Bool)
  | read_data (requested_size : Nat) (ret : Bool) (buffer : Nat) (returned_size : Nat)
  | write_data (requested_size : Nat) (buffer : List Nat) (ret : Bool) (write_status : Bool)
  deriving DecidableEq, Repr

/-- The static storage of the module (source lines 7-24 and 70-71).  `W` is the state of the
transport the capabilities act on, `P` the type `xmodem_packet_t` of the missing header.
The read capability receives the requested size and the contents of `*buffer` and
`*returned_size` at the call. -/
structure Globals (W P : Type) where
  callback_is_inbound_empty : Option (W → Bool × W)
  callback_is_outbound_full : Option (W → Bool × W)
  callback_read_data : Option (Nat → Nat → Nat → W → ReadResult × W)
  callback_write_data : Option (Nat → List Nat → Bool → W → WriteResult × W)
  receive_state : xmodem_receive_state_t
  control_character : Nat
  returned_size : Nat
  inbound : Nat
  payload_buffer : Nat
  payload_buffer_position : Nat
  payload_size : Nat
  current_packet_id : Nat
  current_packet : P
  stopwatch : Nat
  ack_retry_count : Nat

/-- What one call of `xmodem_receive_process` leaves behind: its return value, the static
storage, the transport world, and the capability calls it made, in order. -/
structure Outcome (W P : Type) where
  result : Bool
  globals : Globals W P
  world : W
  calls : List Call

variable {W P : Type}

/-! ## Operations -/

/-- Source lines 27-30. -/
def xmodem_receive_state (g : Globals W P) : xmodem_receive_state_t :=
  g.receive_state

/-- Source lines 33-49. -/
def xmodem_receive_init (g : Globals W P) : Bool × Globals W P :=
  let g1 := { g with receive_state := XMODEM_RECEIVE_UNKNOWN }
  if g1.callback_is_inbound_empty.isSome && g1.callback_is_outbound_full.isSome &&
      g1.callback_read_data.isSome && g1.callback_write_data.isSome then
    (true, { g1 with receive_state := XMODEM_RECEIVE_INITIAL })
  else
    (false, g1)

/-- Source lines 51-65. -/
def xmodem_receive_cleanup (g : Globals W P) : Bool × Globals W P :=
  (true,
    { g with
      callback_is_inbound_empty := none
      callback_is_outbound_full := none
      callback_read_data := none
      callback_write_data := none
      receive_state := XMODEM_RECEIVE_UNKNOWN
      payload_buffer_position := 0
      payload_buffer := 0
      inbound := 0
      returned_size := 0
      control_character := 0 })

/-- Source lines 246-249. -/
def xmodem_receive_set_callback_write
    (callback : Option (Nat → List Nat → Bool → W → WriteResult × W)) (g : Globals W P) :
    Globals W P :=
  { g with callback_write_data := callback }

/-- Source lines 251-254. -/
def xmodem_receive_set_callback_read
    (callback : Option (Nat → Nat → Nat → W → ReadResult × W)) (g : Globals W P) :
    Globals W P :=
  { g with callback_read_data := callback }

/-- Source lines 256-259. -/
def xmodem_receive_set_callback_is_outbound_full
    (callback : Option (W → Bool × W)) (g : Globals W P) : Globals W P :=
  { g with callback_is_outbound_full := callback }

/-- Source lines 261-264. -/
def xmodem_receive_set_callback_is_inbound_empty
    (callback : Option (W → Bool × W)) (g : Globals W P) : Globals W P :=
  { g with callback_is_inbound_empty := callback }

/-- Source lines 68-242.  The argument is converted to `uint32_t`; the sum
`stopwatch + TIMEOUT` and the increment of `ack_retry_count` wrap modulo `2 ^ 32`.
The locals `inbound` and `returned_size` of the two reading branches shadow the
file-scope variables of the same names, which are therefore not written. -/
def xmodem_receive_process (current_time : Nat) (g : Globals W P) (w : W) :
    Option (Outcome W P) :=
  let current_time := current_time % UINT32_MOD
  match g.receive_state with
  | XMODEM_RECEIVE_INITIAL =>
    some ⟨true, { g with receive_state := XMODEM_RECEIVE_SEND_C, ack_retry_count := 0 }, w, []⟩
  | XMODEM_RECEIVE_SEND_C =>
    some ⟨true, { g with receive_state := XMODEM_RECEIVE_WAIT_FOR_ACK,
                         stopwatch := current_time }, w, []⟩
  | XMODEM_RECEIVE_WAIT_FOR_ACK =>
    if current_time > (g.stopwatch + C_ACK_TIMEOUT) % UINT32_MOD then
      some ⟨true, { g with receive_state := XMODEM_RECEIVE_TIMEOUT_ACK }, w, []⟩
    else
      match g.callback_is_inbound_empty with
      | none => none
      | some is_inbound_empty =>
        let e := is_inbound_empty w
        if !e.1 then
          match g.callback_read_data with
          | none => none
          | some read_data =>
            let r := read_data 1 0 0 e.2
            let inbound := r.1.buffer % UINT8_MOD
            let returned_size := r.1.returned_size % UINT32_MOD
            let calls := [Call.is_inbound_empty e.1,
                          Call.read_data 1 r.1.ret inbound returned_size]
            if returned_size > 0 then
              if SOH = inbound then
                some ⟨true, { g with receive_state := XMODEM_RECEIVE_ACK_SUCCESS }, r.2, calls⟩
              else if EOT = inbound then
                some ⟨true, { g with receive_state := XMODEM_RECEIVE_TRANSFER_COMPLETE },
                      r.2, calls⟩
              else if CAN = inbound then
                some ⟨true, { g with receive_state := XMODEM_RECEIVE_SEND_C }, r.2, calls⟩
              else if ETB = inbound then
                some ⟨true, { g with receive_state := XMODEM_RECEIVE_ABORT_TRANSFER },
                      r.2, calls⟩
              else
                some ⟨true, { g with receive_state := XMODEM_RECEIVE_ABORT_TRANSFER },
                      r.2, calls⟩
            else
              some ⟨true, g, r.2, calls⟩
        else
          some ⟨true, g, e.2, [Call.is_inbound_empty e.1]⟩
  | XMODEM_RECEIVE_TIMEOUT_ACK =>
    let ack_retry_count := (g.ack_retry_count + 1) % UINT32_MOD
    if ack_retry_count < SEND_C_MAX_RETRIES then
      some ⟨true, { g with ack_retry_count := ack_retry_count,
                           receive_state := XMODEM_RECEIVE_SEND_C }, w, []⟩
    else
      some ⟨true, { g with ack_retry_count := ack_retry_count,
                           receive_state := XMODEM_RECEIVE_ABORT_TRANSFER }, w, []⟩
  | XMODEM_RECEIVE_ABORT_TRANSFER =>
    some ⟨true, g, w, []⟩
  | XMODEM_RECEIVE_UNKNOWN =>
    some ⟨true, { g with receive_state := XMODEM_RECEIVE_ABORT_TRANSFER }, w, []⟩
  | XMODEM_RECEIVE_READ_BLOCK =>
    if current_time > (g.stopwatch + READ_BLOCK_TIMEOUT) % UINT32_MOD then
      some ⟨true, { g with receive_state := XMODEM_RECEIVE_READ_BLOCK_TIMEOUT }, w, []⟩
    else
      match g.callback_is_inbound_empty with
      | none => none
      | some is_inbound_empty =>
        let e := is_inbound_empty w
        if !e.1 then
          match g.callback_read_data with
          | none => none
          | some read_data =>
            let r := read_data 1 0 0 e.2
            let inbound := r.1.buffer % UINT8_MOD
            let returned_size := r.1.returned_size % UINT32_MOD
            let calls := [Call.is_inbound_empty e.1,
                          Call.read_data 1 r.1.ret inbound returned_size]
            if returned_size > 0 then
              if ACK = inbound then
                some ⟨true, { g with receive_state := XMODEM_RECEIVE_ACK_SUCCESS }, r.2, calls⟩
              else if EOT = inbound then
                some ⟨true, { g with receive_state := XMODEM_RECEIVE_TRANSFER_COMPLETE },
                      r.2, calls⟩
              else
                some ⟨true, g, r.2, calls⟩
            else
              some ⟨true, g, r.2, calls⟩
        else
          some ⟨true, g, e.2, [Call.is_inbound_empty e.1]⟩
  | XMODEM_RECEIVE_READ_BLOCK_TIMEOUT =>
    some ⟨true, { g with receive_state := XMODEM_RECEIVE_ABORT_TRANSFER,
                         stopwatch := current_time }, w, []⟩
  | XMODEM_RECEIVE_READ_BLOCK_SUCCESS =>
    some ⟨true, g, w, []⟩
  | XMODEM_RECEIVE_BLOCK_INVALID =>
    some ⟨true, g, w, []⟩
  | XMODEM_RECEIVE_BLOCK_VALID =>
    some ⟨true, { g with receive_state := XMODEM_RECEIVE_BLOCK_ACK }, w, []⟩
  | XMODEM_RECEIVE_BLOCK_ACK =>
    some ⟨true, { g with stopwatch := current_time,
                         receive_state := XMODEM_RECEIVE_WAIT_FOR_ACK }, w, []⟩
  | _ =>
    some ⟨true, { g with receive_state := XMODEM_RECEIVE_UNKNOWN }, w, []⟩

/-! ## Observations on polls and runs -/

/-- Whether a capability call is a read that delivered at least one byte, the byte being
`b`. -/
def Call.readsByte (b : Nat) : Call → Bool
  | Call.read_data _ _ buffer returned_size => decide (buffer = b) && decide (0 < returned_size)
  | _ => false

/-- Whether a capability call is a call of the write capability. -/
def Call.isWrite : Call → Bool
  | Call.write_data _ _ _ _ => true
  | _ => false

/-- The poll read the byte `b` from the transport. -/
def Outcome.reads (o : Outcome W P) (b : Nat) : Bool :=
  o.calls.any (Call.readsByte b)

/-- Static storage and transport after `n` successive polls, the `i`-th poll being made at
time `t i`; `none` when one of the polls called a null capability. -/
def pollSeq (t : Nat → Nat) : Nat → Globals W P → W → Option (Globals W P × W)
  | 0, g, w => some (g, w)
  | n + 1, g, w =>
    match xmodem_receive_process (t 0) g w with
    | none => none
    | some o => pollSeq (fun i => t (i + 1)) n o.globals o.world

/-- The value of `receive_state` after each of `n` successive polls, in order. -/
def statesAfter (t : Nat → Nat) : Nat → Globals W P → W → List xmodem_receive_state_t
  | 0, _, _ => []
  | n + 1, g, w =>
    match xmodem_receive_process (t 0) g w with
    | none => []
    | some o => o.globals.receive_state :: statesAfter (fun i => t (i + 1)) n o.globals o.world

/-- The state sequence of a run of `n` polls: the state before the first poll followed by
the state after each poll. -/
def stateTrace (t : Nat → Nat) (n : Nat) (g : Globals W P) (w : W) :
    List xmodem_receive_state_t :=
  g.receive_state :: statesAfter t n g w

/-- How many times a state sequence enters the state `x`: the number of positions at which
the state is `x` and the state just before is not. -/
def enters (x : xmodem_receive_state_t) : List xmodem_receive_state_t → Nat
  | a :: b :: l => (if a ≠ x ∧ b = x then 1 else 0) + enters x (b :: l)
  | _ => 0

/-- A run of `n` polls at times `t 0, t 1, ...` from storage `g` and transport `w` calls no
null capability, ends with storage `g'` and transport `w'`, and passes through the states
`l`, one after each poll. -/
def RunsTo (t : Nat → Nat) (n : Nat) (g : Globals W P) (w : W) (g' : Globals W P) (w' : W)
    (l : List xmodem_receive_state_t) : Prop :=
  pollSeq t n g w = some (g', w') ∧ statesAfter t n g w = l

/-- The inbound channel is empty on every poll: whatever number of polls the run has made,
the installed `is_inbound_empty` capability answers true on the transport as it then is. -/
def InboundEmpty (t : Nat → Nat) (g : Globals W P) (w : W) : Prop :=
  ∀ i g' w' f, pollSeq t i g w = some (g', w') →
    g'.callback_is_inbound_empty = some f → (f w').1 = true

/-- Every wait is eventually polled late: whenever the run is in
`XMODEM_RECEIVE_WAIT_FOR_ACK` after `i` polls, some poll `j` with `i ≤ j` is made at a time
more than `C_ACK_TIMEOUT` after the recorded deadline start. -/
def WaitsPolledLate (t : Nat → Nat) (g : Globals W P) (w : W) : Prop :=
  ∀ i g' w', pollSeq t i g w = some (g', w') →
    g'.receive_state = XMODEM_RECEIVE_WAIT_FOR_ACK →
    ∃ j, i ≤ j ∧ g'.stopwatch + C_ACK_TIMEOUT < t j

/-! ## Further observations: capability calls of a run, call sequences of the module -/

/-- Whether a capability call is a call of the read capability. -/
def Call.isRead : Call → Bool
  | Call.read_data _ _ _ _ => true
  | _ => false

/-- The capability calls made by `n` successive polls, in order; the calls of a run that
stops at a null capability are those of the polls before. -/
def callsAfter (t : Nat → Nat) : Nat → Globals W P → W → List Call
  | 0, _, _ => []
  | n + 1, g, w =>
    match xmodem_receive_process (t 0) g w with
    | none => []
    | some o => o.calls ++ callsAfter (fun i => t (i + 1)) n o.globals o.world

/-- All four capabilities are installed (the test of source lines 39-42). -/
def allPresent (g : Globals W P) : Bool :=
  g.callback_is_inbound_empty.isSome && g.callback_is_outbound_full.isSome &&
    g.callback_read_data.isSome && g.callback_write_data.isSome

/-- The states in which the handshake is in progress. -/
def handshaking : xmodem_receive_state_t → Bool
  | XMODEM_RECEIVE_SEND_C => true
  | XMODEM_RECEIVE_WAIT_FOR_ACK => true
  | XMODEM_RECEIVE_TIMEOUT_ACK => true
  | _ => false

/-- The states other than the block states `XMODEM_RECEIVE_READ_BLOCK`,
`XMODEM_RECEIVE_READ_BLOCK_TIMEOUT`, `XMODEM_RECEIVE_READ_BLOCK_SUCCESS`,
`XMODEM_RECEIVE_BLOCK_INVALID`, `XMODEM_RECEIVE_BLOCK_VALID` and `XMODEM_RECEIVE_BLOCK_ACK`. -/
def handshakeStates : List xmodem_receive_state_t :=
  [XMODEM_RECEIVE_INITIAL, XMODEM_RECEIVE_SEND_C, XMODEM_RECEIVE_WAIT_FOR_ACK,
   XMODEM_RECEIVE_TIMEOUT_ACK, XMODEM_RECEIVE_ACK_SUCCESS, XMODEM_RECEIVE_TRANSFER_COMPLETE,
   XMODEM_RECEIVE_UNKNOWN, XMODEM_RECEIVE_ABORT_TRANSFER]

/-- The six block states. -/
def blockStates : List xmodem_receive_state_t :=
  [XMODEM_RECEIVE_READ_BLOCK, XMODEM_RECEIVE_READ_BLOCK_TIMEOUT,
   XMODEM_RECEIVE_READ_BLOCK_SUCCESS, XMODEM_RECEIVE_BLOCK_INVALID,
   XMODEM_RECEIVE_BLOCK_VALID, XMODEM_RECEIVE_BLOCK_ACK]

/-- One call of a function of the module's interface (source lines 33-65, 68-242, 246-264). -/
inductive Op (W : Type) where
  | init
  | cleanup
  | process (current_time : Nat)
  | set_callback_write (callback : Option (Nat → List Nat → Bool → W → WriteResult × W))
  | set_callback_read (callback : Option (Nat → Nat → Nat → W → ReadResult × W))
  | set_callback_is_outbound_full (callback : Option (W → Bool × W))
  | set_callback_is_inbound_empty (callback : Option (W → Bool × W))

/-- Whether the call is `xmodem_receive_init`. -/
def Op.isInit : Op W → Bool
  | Op.init => true
  | _ => false

/-- Whether the call is `xmodem_receive_cleanup`. -/
def Op.isCleanup : Op W → Bool
  | Op.cleanup => true
  | _ => false

/-- Whether the call is one of the four callback setters. -/
def Op.isSetter : Op W → Bool
  | Op.set_callback_write _ => true
  | Op.set_callback_read _ => true
  | Op.set_callback_is_outbound_full _ => true
  | Op.set_callback_is_inbound_empty _ => true
  | _ => false

/-- The effect of one call on the static storage and the transport; `none` when the call
invokes a null capability. -/
def Op.exec (g : Globals W P) (w : W) : Op W → Option (Globals W P × W)
  | Op.init => some ((xmodem_receive_init g).2, w)
  | Op.cleanup => some ((xmodem_receive_cleanup g).2, w)
  | Op.process current_time =>
    match xmodem_receive_process current_time g w with
    | none => none
    | some o => some (o.globals, o.world)
  | Op.set_callback_write callback => some (xmodem_receive_set_callback_write callback g, w)
  | Op.set_callback_read callback => some (xmodem_receive_set_callback_read callback g, w)
  | Op.set_callback_is_outbound_full callback =>
    some (xmodem_receive_set_callback_is_outbound_full callback g, w)
  | Op.set_callback_is_inbound_empty callback =>
    some (xmodem_receive_set_callback_is_inbound_empty callback g, w)

/-- The effect of a sequence of calls, made in order. -/
def runOps : List (Op W) → Globals W P → W → Option (Globals W P × W)
  | [], g, w => some (g, w)
  | op :: ops, g, w =>
    match op.exec g w with
    | none => none
    | some c => runOps ops c.1 c.2

/-- The sequence of calls begins with `xmodem_receive_init` or `xmodem_receive_cleanup`. -/
def beginsWithInitOrCleanup : List (Op W) → Bool
  | op :: _ => op.isInit || op.isCleanup
  | [] => false

/-- The calls of a sequence that come after its last `xmodem_receive_init`; all of them when
the sequence has no `xmodem_receive_init`. -/
def opsAfterLastInit (ops : List (Op W)) : List (Op W) :=
  (ops.reverse.takeWhile (fun op => !op.isInit)).reverse

/-- No callback setter is called after the last `xmodem_receive_init` of the sequence; a
sequence without `xmodem_receive_init` satisfies this. -/
def noSetterAfterLastInit (ops : List (Op W)) : Bool :=
  !(ops.any Op.isInit) || (opsAfterLastInit ops).all (fun op => !op.isSetter)

/-! ## A concrete transport

The transport world is the queue of bytes not yet read. -/

/-- Sample `is_inbound_empty`: reports whether the queue is empty. -/
def queue_is_inbound_empty (q : List Nat) : Bool × List Nat :=
  (q.isEmpty, q)

/-- Sample `is_outbound_full`: the outbound channel is never saturated. -/
def queue_is_outbound_full (q : List Nat) : Bool × List Nat :=
  (false, q)

/-- Sample `read`: delivers the first byte of the queue, if there is one. -/
def queue_read_data (_requested_size buffer returned_size : Nat) :
    List Nat → ReadResult × List Nat
  | [] => (⟨false, buffer, returned_size⟩, [])
  | b :: q => (⟨true, b, 1⟩, q)

/-- Sample `write`: accepts everything. -/
def queue_write_data (_requested_size : Nat) (_buffer : List Nat) (_write_status : Bool)
    (q : List Nat) : WriteResult × List Nat :=
  (⟨true, true⟩, q)

/-- Static storage with the four sample capabilities installed, in the given state and with
the given deadline start and handshake retry count. -/
def sampleGlobals (st : xmodem_receive_state_t) (stopwatch ack_retry_count : Nat) :
    Globals (List Nat) Unit where
  callback_is_inbound_empty := some queue_is_inbound_empty
  callback_is_outbound_full := some queue_is_outbound_full
  callback_read_data := some queue_read_data
  callback_write_data := some queue_write_data
  receive_state := st
  control_character := 0
  returned_size := 0
  inbound := 0
  payload_buffer := 0
  payload_buffer_position := 0
  payload_size := 0
  current_packet_id := 0
  current_packet := ()
  stopwatch := stopwatch
  ack_retry_count := ack_retry_count

/-- A schedule of poll times: one poll every 2 seconds, up to 200 seconds. -/
def sampleTimes (i : Nat) : Nat :=
  min (2000 * i) 200000

/-! ## Frames

The source has no code for frames or for the integrity code; these definitions describe the
frames that a transmitter sends. -/

/-- Modelled from the spec: one bit step of CRC-16/XMODEM (polynomial 0x1021, most
significant bit first) on a 16-bit register; the source has no checksum code. -/
def crc16_bit (crc : Nat) : Nat :=
  if crc / 32768 % 2 = 1 then ((crc * 2) % 65536) ^^^ 0x1021 else (crc * 2) % 65536

/-- Modelled from the spec: CRC-16/XMODEM step for one byte; the source has no checksum
code. -/
def crc16_byte (crc byte : Nat) : Nat :=
  crc16_bit (crc16_bit (crc16_bit (crc16_bit (crc16_bit (crc16_bit (crc16_bit (crc16_bit
    (crc ^^^ (byte % 256 * 256)))))))))

/-- Modelled from the spec: CRC-16/XMODEM of a byte sequence, initial value 0; the source has
no checksum code. -/
def crc16_xmodem (data : List Nat) : Nat :=
  data.foldl crc16_byte 0

/-- Modelled from the spec: the block frame layout `[header_byte][block_id]
[block_id_complement][payload][integrity_code, big-endian]`; the source has no frame code. -/
def frame (block_id : Nat) (payload : List Nat) : List Nat :=
  [SOH, block_id % 256, 255 - block_id % 256] ++ payload ++
    [crc16_xmodem payload / 256, crc16_xmodem payload % 256]

/-- A payload of 128 bytes. -/
def samplePayload : List Nat :=
  List.range 128

end XmodemReceiver

/-! ## Theorems -/

namespace XmodemReceiver

open xmodem_receive_state_t

variable {W P : Type}

/-! ### Shared lemmas -/

/-- A poll in `XMODEM_RECEIVE_WAIT_FOR_ACK` that reads the byte `b` changes nothing in the
static storage but `receive_state`, which is chosen by the chain of comparisons of source
lines 110-132. -/
theorem wait_for_ack_reads (current_time : Nat) (g : Globals W P) (w : W) (o : Outcome W P)
    (b : Nat) (hstate : g.receive_state = XMODEM_RECEIVE_WAIT_FOR_ACK)
    (hpoll : xmodem_receive_process current_time g w = some o)
    (hreads : o.reads b = true) :
    o.globals = { g with receive_state :=
      if SOH = b then XMODEM_RECEIVE_ACK_SUCCESS
      else if EOT = b then XMODEM_RECEIVE_TRANSFER_COMPLETE
      else if CAN = b then XMODEM_RECEIVE_SEND_C
      else XMODEM_RECEIVE_ABORT_TRANSFER } := by
  unfold xmodem_receive_process at hpoll
  simp only [hstate] at hpoll
  split at hpoll
  · cases hpoll
    simp [Outcome.reads] at hreads
  · split at hpoll
    · cases hpoll
    · split at hpoll
      · split at hpoll
        · cases hpoll
        · split at hpoll
          · split_ifs at hpoll <;> cases hpoll <;>
              simp [Outcome.reads, Call.readsByte] at hreads <;>
              obtain ⟨hb, _⟩ := hreads <;> subst hb <;> simp_all
          · cases hpoll
            simp [Outcome.reads, Call.readsByte] at hreads
            omega
      · cases hpoll
        simp [Outcome.reads, Call.readsByte] at hreads

/-- A poll in `XMODEM_RECEIVE_WAIT_FOR_ACK` does read a byte whenever the deadline has not
passed, both capabilities are installed, the inbound channel is not empty and the read
capability delivers at least one byte: the poll returns, and it read the delivered byte. -/
theorem wait_for_ack_read_happens (current_time : Nat) (g : Globals W P) (w : W)
    (f : W → Bool × W) (rd : Nat → Nat → Nat → W → ReadResult × W)
    (hstate : g.receive_state = XMODEM_RECEIVE_WAIT_FOR_ACK)
    (hearly : ¬ current_time % UINT32_MOD > (g.stopwatch + C_ACK_TIMEOUT) % UINT32_MOD)
    (hie : g.callback_is_inbound_empty = some f) (hne : (f w).1 = false)
    (hrd : g.callback_read_data = some rd)
    (hsize : 0 < (rd 1 0 0 (f w).2).1.returned_size % UINT32_MOD) :
    ∃ o, xmodem_receive_process current_time g w = some o ∧
      o.reads ((rd 1 0 0 (f w).2).1.buffer % UINT8_MOD) = true ∧
      o.world = (rd 1 0 0 (f w).2).2 := by
  unfold xmodem_receive_process
  simp only [hstate, hearly, if_false, hie, hne, hrd, Bool.not_false, if_true, hsize]
  split_ifs <;> simp [Outcome.reads, Call.readsByte, hsize]

/-- A poll in `XMODEM_RECEIVE_ABORT_TRANSFER` is the identity and calls nothing. -/
theorem process_abort (current_time : Nat) (g : Globals W P) (w : W)
    (hstate : g.receive_state = XMODEM_RECEIVE_ABORT_TRANSFER) :
    xmodem_receive_process current_time g w = some ⟨true, g, w, []⟩ := by
  unfold xmodem_receive_process
  simp only [hstate]

/-- Any number of polls in `XMODEM_RECEIVE_ABORT_TRANSFER` leaves storage and transport as
they were. -/
theorem pollSeq_abort (t : Nat → Nat) (n : Nat) (g : Globals W P) (w : W)
    (hstate : g.receive_state = XMODEM_RECEIVE_ABORT_TRANSFER) :
    pollSeq t n g w = some (g, w) := by
  induction n generalizing t with
  | zero => rfl
  | succ n ih =>
    unfold pollSeq
    rw [process_abort (t 0) g w hstate]
    exact ih _

/-! ### Runs -/

/-- Runs compose: `n` polls followed by `m` polls are `n + m` polls. -/
theorem RunsTo_append {t : Nat → Nat} {n m : Nat} {g g1 g2 : Globals W P} {w w1 w2 : W}
    {l1 l2 : List xmodem_receive_state_t}
    (h1 : RunsTo t n g w g1 w1 l1)
    (h2 : RunsTo (fun i => t (i + n)) m g1 w1 g2 w2 l2) :
    RunsTo t (n + m) g w g2 w2 (l1 ++ l2) := by
  induction n generalizing t g w l1 with
  | zero =>
    obtain ⟨ha, hb⟩ := h1
    simp only [pollSeq, Option.some.injEq, Prod.mk.injEq] at ha
    simp only [statesAfter] at hb
    obtain ⟨rfl, rfl⟩ := ha
    subst hb
    simpa using h2
  | succ n ih =>
    obtain ⟨ha, hb⟩ := h1
    have hnm : n + 1 + m = (n + m) + 1 := by omega
    rw [hnm]
    unfold RunsTo
    unfold pollSeq statesAfter at *
    cases hp : xmodem_receive_process (t 0) g w with
    | none => simp [hp] at ha
    | some o =>
      simp only [hp] at ha hb ⊢
      subst hb
      have := ih (t := fun i => t (i + 1)) ⟨ha, rfl⟩ h2
      exact ⟨this.1, by simp [this.2]⟩

/-- A single poll is a run of length one. -/
theorem RunsTo_one {t : Nat → Nat} {g : Globals W P} {w : W} {o : Outcome W P}
    (h : xmodem_receive_process (t 0) g w = some o) :
    RunsTo t 1 g w o.globals o.world [o.globals.receive_state] := by
  simp [RunsTo, pollSeq, statesAfter, h]

/-- If the inbound channel is empty on every poll of a run, it is on every poll of the rest
of the run after its first `n` polls. -/
theorem InboundEmpty_shift {t : Nat → Nat} {n : Nat} {g g1 : Globals W P} {w w1 : W}
    (h : InboundEmpty t g w) (hrun : pollSeq t n g w = some (g1, w1)) :
    InboundEmpty (fun i => t (i + n)) g1 w1 := by
  intro i g' w' f hi hf
  have hcomp := RunsTo_append
    (show RunsTo t n g w g1 w1 (statesAfter t n g w) from ⟨hrun, rfl⟩)
    (show RunsTo (fun i => t (i + n)) i g1 w1 g' w' _ from ⟨hi, rfl⟩)
  exact h (n + i) g' w' f hcomp.1 hf

/-- If every wait of a run is eventually polled late, so is every wait of the rest of the
run after its first `n` polls. -/
theorem WaitsPolledLate_shift {t : Nat → Nat} {n : Nat} {g g1 : Globals W P} {w w1 : W}
    (h : WaitsPolledLate t g w) (hrun : pollSeq t n g w = some (g1, w1)) :
    WaitsPolledLate (fun i => t (i + n)) g1 w1 := by
  intro i g' w' hi hstate
  have hcomp := RunsTo_append
    (show RunsTo t n g w g1 w1 (statesAfter t n g w) from ⟨hrun, rfl⟩)
    (show RunsTo (fun i => t (i + n)) i g1 w1 g' w' _ from ⟨hi, rfl⟩)
  obtain ⟨j, hij, hj⟩ := h (n + i) g' w' hcomp.1 hstate
  refine ⟨j - n, by omega, ?_⟩
  have : j - n + n = j := by omega
  simpa [this] using hj

/-- Repetitions of the current state do not show in the state sequence without stays. -/
theorem destutter_replicate_append (a : xmodem_receive_state_t) (k : Nat)
    (l : List xmodem_receive_state_t) :
    (List.replicate k a ++ l).destutter' (· ≠ ·) a = l.destutter' (· ≠ ·) a := by
  induction k with
  | zero => simp
  | succ k ih => simp [List.replicate_succ, ih]

/-- Staying in the current state enters no state. -/
theorem enters_replicate_append (x a : xmodem_receive_state_t) (k : Nat)
    (l : List xmodem_receive_state_t) :
    enters x (a :: (List.replicate k a ++ l)) = enters x (a :: l) := by
  induction k with
  | zero => simp
  | succ k ih => simp [List.replicate_succ, enters, ih]

/-! ### Single polls -/

/-- The poll of source lines 76-81. -/
theorem process_initial (current_time : Nat) (g : Globals W P) (w : W)
    (hstate : g.receive_state = XMODEM_RECEIVE_INITIAL) :
    xmodem_receive_process current_time g w =
      some ⟨true, { g with receive_state := XMODEM_RECEIVE_SEND_C, ack_retry_count := 0 },
        w, []⟩ := by
  unfold xmodem_receive_process
  simp only [hstate]

/-- The poll of source lines 83-88. -/
theorem process_send_c (current_time : Nat) (g : Globals W P) (w : W)
    (hstate : g.receive_state = XMODEM_RECEIVE_SEND_C) :
    xmodem_receive_process current_time g w =
      some ⟨true, { g with receive_state := XMODEM_RECEIVE_WAIT_FOR_ACK,
                           stopwatch := current_time % UINT32_MOD }, w, []⟩ := by
  unfold xmodem_receive_process
  simp only [hstate]

/-- The poll of source lines 139-153. -/
theorem process_timeout_ack (current_time : Nat) (g : Globals W P) (w : W)
    (hstate : g.receive_state = XMODEM_RECEIVE_TIMEOUT_ACK) :
    xmodem_receive_process current_time g w =
      some ⟨true, { g with
        ack_retry_count := (g.ack_retry_count + 1) % UINT32_MOD
        receive_state :=
          if (g.ack_retry_count + 1) % UINT32_MOD < SEND_C_MAX_RETRIES
          then XMODEM_RECEIVE_SEND_C else XMODEM_RECEIVE_ABORT_TRANSFER }, w, []⟩ := by
  unfold xmodem_receive_process
  simp only [hstate]
  split <;> rfl

/-- The poll of source lines 94-97: past the deadline. -/
theorem process_wait_timed_out (current_time : Nat) (g : Globals W P) (w : W)
    (hstate : g.receive_state = XMODEM_RECEIVE_WAIT_FOR_ACK)
    (hlate : current_time % UINT32_MOD > (g.stopwatch + C_ACK_TIMEOUT) % UINT32_MOD) :
    xmodem_receive_process current_time g w =
      some ⟨true, { g with receive_state := XMODEM_RECEIVE_TIMEOUT_ACK }, w, []⟩ := by
  unfold xmodem_receive_process
  simp only [hstate, hlate, if_true]

/-- The poll of source lines 98-105 when the inbound channel is empty: nothing is read and
the storage stays as it is. -/
theorem process_wait_starved (current_time : Nat) (g : Globals W P) (w : W)
    (f : W → Bool × W)
    (hstate : g.receive_state = XMODEM_RECEIVE_WAIT_FOR_ACK)
    (hearly : ¬ current_time % UINT32_MOD > (g.stopwatch + C_ACK_TIMEOUT) % UINT32_MOD)
    (hie : g.callback_is_inbound_empty = some f) (hempty : (f w).1 = true) :
    xmodem_receive_process current_time g w =
      some ⟨true, g, (f w).2, [Call.is_inbound_empty true]⟩ := by
  unfold xmodem_receive_process
  simp only [hstate, hearly, if_false, hie, hempty]
  simp

/-! ### The starved handshake -/

/-- A starved wait: from `XMODEM_RECEIVE_WAIT_FOR_ACK`, with a poll `j` more than
`C_ACK_TIMEOUT` after the deadline start, the run stays in the state for some `k` polls and
then moves to `XMODEM_RECEIVE_TIMEOUT_ACK`, the storage being otherwise unchanged. -/
theorem wait_phase (f : W → Bool × W) (j : Nat) :
    ∀ (t : Nat → Nat) (g : Globals W P) (w : W),
      g.receive_state = XMODEM_RECEIVE_WAIT_FOR_ACK →
      g.callback_is_inbound_empty = some f →
      (∀ i, t i < UINT32_MOD) →
      InboundEmpty t g w →
      g.stopwatch + C_ACK_TIMEOUT < t j →
      ∃ k w', RunsTo t (k + 1) g w { g with receive_state := XMODEM_RECEIVE_TIMEOUT_ACK } w'
        (List.replicate k XMODEM_RECEIVE_WAIT_FOR_ACK ++ [XMODEM_RECEIVE_TIMEOUT_ACK]) := by
  induction j with
  | zero =>
    intro t g w hstate _ hrange _ hj
    refine ⟨0, w, ?_⟩
    have hlate : t 0 % UINT32_MOD > (g.stopwatch + C_ACK_TIMEOUT) % UINT32_MOD := by
      have := hrange 0
      rw [Nat.mod_eq_of_lt this, Nat.mod_eq_of_lt (by omega)]
      exact hj
    simpa using RunsTo_one (t := t) (process_wait_timed_out (t 0) g w hstate hlate)
  | succ j ih =>
    intro t g w hstate hie hrange hempty hj
    have hsmall : (g.stopwatch + C_ACK_TIMEOUT) % UINT32_MOD = g.stopwatch + C_ACK_TIMEOUT :=
      Nat.mod_eq_of_lt (lt_trans hj (hrange _))
    have ht0 : t 0 % UINT32_MOD = t 0 := Nat.mod_eq_of_lt (hrange 0)
    by_cases hnow : g.stopwatch + C_ACK_TIMEOUT < t 0
    · refine ⟨0, w, ?_⟩
      have hlate : t 0 % UINT32_MOD > (g.stopwatch + C_ACK_TIMEOUT) % UINT32_MOD := by
        rw [ht0, hsmall]; exact hnow
      simpa using RunsTo_one (t := t) (process_wait_timed_out (t 0) g w hstate hlate)
    · have hearly : ¬ t 0 % UINT32_MOD > (g.stopwatch + C_ACK_TIMEOUT) % UINT32_MOD := by
        rw [ht0, hsmall]; exact hnow
      have h1 := RunsTo_one (t := t)
        (process_wait_starved (t 0) g w f hstate hearly hie (hempty 0 g w f rfl hie))
      obtain ⟨k, w', h2⟩ := ih (fun i => t (i + 1)) g (f w).2 hstate hie
        (fun i => hrange (i + 1)) (InboundEmpty_shift hempty h1.1) hj
      refine ⟨k + 1, w', ?_⟩
      have h3 := RunsTo_append h1 h2
      have hk : 1 + (k + 1) = k + 1 + 1 := by omega
      rw [hk] at h3
      simpa [hstate, List.replicate_succ] using h3

/-- One starved handshake cycle: from `XMODEM_RECEIVE_SEND_C` the run records the deadline
start, waits, times out, counts the retry and goes back to `XMODEM_RECEIVE_SEND_C`, or to
`XMODEM_RECEIVE_ABORT_TRANSFER` when the retries are used up. -/
theorem handshake_cycle (f : W → Bool × W) (t : Nat → Nat) (g : Globals W P) (w : W)
    (hstate : g.receive_state = XMODEM_RECEIVE_SEND_C)
    (hie : g.callback_is_inbound_empty = some f)
    (hrange : ∀ i, t i < UINT32_MOD)
    (hempty : InboundEmpty t g w)
    (hlate : WaitsPolledLate t g w) :
    ∃ n k w', RunsTo t n g w
      { g with
        stopwatch := t 0
        ack_retry_count := (g.ack_retry_count + 1) % UINT32_MOD
        receive_state :=
          if (g.ack_retry_count + 1) % UINT32_MOD < SEND_C_MAX_RETRIES
          then XMODEM_RECEIVE_SEND_C else XMODEM_RECEIVE_ABORT_TRANSFER } w'
      (List.replicate (k + 1) XMODEM_RECEIVE_WAIT_FOR_ACK ++
        [XMODEM_RECEIVE_TIMEOUT_ACK,
          if (g.ack_retry_count + 1) % UINT32_MOD < SEND_C_MAX_RETRIES
          then XMODEM_RECEIVE_SEND_C else XMODEM_RECEIVE_ABORT_TRANSFER]) := by
  have h1 := RunsTo_one (t := t) (process_send_c (t 0) g w hstate)
  rw [Nat.mod_eq_of_lt (hrange 0)] at h1
  simp only at h1
  obtain ⟨j, hj1, hj⟩ := hlate 1 _ _ h1.1 rfl
  simp only at hj
  have hj' : t 0 + C_ACK_TIMEOUT < (fun i => t (i + 1)) (j - 1) := by
    have : j - 1 + 1 = j := by omega
    simpa [this] using hj
  obtain ⟨k, w', h2⟩ := wait_phase f (j - 1) (fun i => t (i + 1))
    { g with receive_state := XMODEM_RECEIVE_WAIT_FOR_ACK, stopwatch := t 0 } w rfl hie
    (fun i => hrange (i + 1)) (InboundEmpty_shift hempty h1.1) hj'
  have h12 := RunsTo_append h1 h2
  have h3 := RunsTo_one (t := fun i => t (i + (1 + (k + 1))))
    (process_timeout_ack (t (0 + (1 + (k + 1))))
      { g with receive_state := XMODEM_RECEIVE_TIMEOUT_ACK, stopwatch := t 0 } w' rfl)
  have h123 := RunsTo_append h12 h3
  refine ⟨1 + (k + 1) + 1, k, w', ?_⟩
  simpa [List.replicate_succ] using h123

/-- The starved handshake from `XMODEM_RECEIVE_SEND_C` with `m + 1` retries left: the run
reaches `XMODEM_RECEIVE_ABORT_TRANSFER` after `m + 1` cycles. -/
theorem handshake_rounds (f : W → Bool × W) (m : Nat) :
    ∀ (t : Nat → Nat) (g : Globals W P) (w : W),
      g.receive_state = XMODEM_RECEIVE_SEND_C →
      g.callback_is_inbound_empty = some f →
      (∀ i, t i < UINT32_MOD) →
      InboundEmpty t g w →
      WaitsPolledLate t g w →
      g.ack_retry_count + (m + 1) = SEND_C_MAX_RETRIES →
      ∃ n g' w' l, RunsTo t n g w g' w' l ∧
        g'.receive_state = XMODEM_RECEIVE_ABORT_TRANSFER ∧
        l.destutter' (· ≠ ·) XMODEM_RECEIVE_SEND_C =
          (List.replicate (m + 1) [XMODEM_RECEIVE_SEND_C, XMODEM_RECEIVE_WAIT_FOR_ACK,
            XMODEM_RECEIVE_TIMEOUT_ACK]).flatten ++ [XMODEM_RECEIVE_ABORT_TRANSFER] ∧
        enters XMODEM_RECEIVE_SEND_C (XMODEM_RECEIVE_SEND_C :: l) = m ∧
        enters XMODEM_RECEIVE_WAIT_FOR_ACK (XMODEM_RECEIVE_SEND_C :: l) = m + 1 := by
  induction m with
  | zero =>
    intro t g w hstate hie hrange hempty hlate hcount
    obtain ⟨n, k, w', hrun⟩ := handshake_cycle f t g w hstate hie hrange hempty hlate
    have hc : (g.ack_retry_count + 1) % UINT32_MOD = 5 := by
      simp only [SEND_C_MAX_RETRIES] at hcount
      have : g.ack_retry_count + 1 = 5 := by omega
      rw [this]; rfl
    simp only [hc, SEND_C_MAX_RETRIES, lt_irrefl, if_false] at hrun
    refine ⟨n, _, w', _, hrun, rfl, ?_, ?_, ?_⟩
    · rw [List.replicate_succ, List.cons_append, List.destutter'_cons_pos _ (by decide),
        destutter_replicate_append]
      simp
    · rw [List.replicate_succ, List.cons_append]
      simp [enters, enters_replicate_append]
    · rw [List.replicate_succ, List.cons_append]
      simp [enters, enters_replicate_append]
  | succ m ih =>
    intro t g w hstate hie hrange hempty hlate hcount
    obtain ⟨n, k, w', hrun⟩ := handshake_cycle f t g w hstate hie hrange hempty hlate
    have hc : (g.ack_retry_count + 1) % UINT32_MOD = g.ack_retry_count + 1 := by
      apply Nat.mod_eq_of_lt
      simp only [SEND_C_MAX_RETRIES] at hcount
      simp only [UINT32_MOD]
      omega
    have hlt : g.ack_retry_count + 1 < SEND_C_MAX_RETRIES := by omega
    simp only [hc, hlt, if_true] at hrun
    obtain ⟨n', g', w'', l', hrun', hfinal, hd, hs, hw⟩ :=
      ih (fun i => t (i + n))
        { g with
          stopwatch := t 0
          ack_retry_count := g.ack_retry_count + 1
          receive_state := XMODEM_RECEIVE_SEND_C }
        w' rfl hie (fun i => hrange (i + n)) (InboundEmpty_shift hempty hrun.1) (WaitsPolledLate_shift hlate hrun.1)
        (by simp only; omega)
    refine ⟨n + n', g', w'', _, RunsTo_append hrun hrun', hfinal, ?_, ?_, ?_⟩
    · rw [List.append_assoc, List.replicate_succ, List.cons_append,
        List.destutter'_cons_pos _ (by decide), destutter_replicate_append]
      simp [hd, List.replicate_succ]
    · rw [List.append_assoc, List.replicate_succ, List.cons_append]
      simp [enters, enters_replicate_append, hs]
      omega
    · rw [List.append_assoc, List.replicate_succ, List.cons_append]
      simp [enters, enters_replicate_append, hw]
      omega

/-! ### The sample transport, starved -/

/-- With the sample transport and an empty queue, a poll leaves the queue empty and the
`is_inbound_empty` capability installed. -/
theorem sample_poll_keeps_empty (current_time : Nat) (g : Globals (List Nat) Unit)
    (o : Outcome (List Nat) Unit)
    (hie : g.callback_is_inbound_empty = some queue_is_inbound_empty)
    (hpoll : xmodem_receive_process current_time g [] = some o) :
    o.world = [] ∧ o.globals.callback_is_inbound_empty = some queue_is_inbound_empty := by
  unfold xmodem_receive_process at hpoll
  simp only [hie, queue_is_inbound_empty, List.isEmpty_nil, Bool.not_true] at hpoll
  split at hpoll <;> (try split at hpoll) <;> simp at hpoll <;> subst hpoll <;> simp [hie]

/-- With the sample transport and an empty queue, the queue stays empty along a run. -/
theorem sample_run_keeps_empty (n : Nat) :
    ∀ (t : Nat → Nat) (g g' : Globals (List Nat) Unit) (w' : List Nat),
      g.callback_is_inbound_empty = some queue_is_inbound_empty →
      pollSeq t n g [] = some (g', w') →
      w' = [] ∧ g'.callback_is_inbound_empty = some queue_is_inbound_empty := by
  induction n with
  | zero =>
    intro t g g' w' hie h
    simp only [pollSeq, Option.some.injEq, Prod.mk.injEq] at h
    obtain ⟨rfl, rfl⟩ := h
    exact ⟨rfl, hie⟩
  | succ n ih =>
    intro t g g' w' hie h
    unfold pollSeq at h
    cases hp : xmodem_receive_process (t 0) g [] with
    | none => simp [hp] at h
    | some o =>
      simp only [hp] at h
      obtain ⟨hw, hcb⟩ := sample_poll_keeps_empty (t 0) g o hie hp
      rw [hw] at h
      exact ih _ _ _ _ hcb h

/-- With the sample transport and an empty queue, the inbound channel is empty on every
poll of every run. -/
theorem sample_inbound_empty (g : Globals (List Nat) Unit)
    (hie : g.callback_is_inbound_empty = some queue_is_inbound_empty) (t : Nat → Nat) :
    InboundEmpty t g [] := by
  intro i g' w' f hi hf
  obtain ⟨hw, hcb⟩ := sample_run_keeps_empty i t g g' w' hie hi
  rw [hcb] at hf
  cases hf
  rw [hw]
  rfl

set_option maxRecDepth 100000 in
/-- With the sample transport, an empty queue and the sample schedule, every wait is polled
late: the run is over after 21 polls, and the poll at index 100 is late for every deadline
start recorded before. -/
theorem sample_waits_polled_late :
    WaitsPolledLate sampleTimes (sampleGlobals XMODEM_RECEIVE_INITIAL 0 0) [] := by
  intro i g' w' hi hstate
  by_cases hlt : i < 21
  · refine ⟨100, by omega, ?_⟩
    have hall : ∀ k < 21, (pollSeq sampleTimes k (sampleGlobals XMODEM_RECEIVE_INITIAL 0 0)
        []).all (fun c => decide (c.1.stopwatch + C_ACK_TIMEOUT < sampleTimes 100)) = true := by
      decide
    have := hall i hlt
    rw [hi] at this
    simpa using this
  · exfalso
    obtain ⟨c, hc, hcs⟩ : ∃ c, pollSeq sampleTimes 21
        (sampleGlobals XMODEM_RECEIVE_INITIAL 0 0) [] = some c ∧
        c.1.receive_state = XMODEM_RECEIVE_ABORT_TRANSFER := ⟨_, rfl, by decide⟩
    have h2 := RunsTo_append
      (show RunsTo sampleTimes 21 (sampleGlobals XMODEM_RECEIVE_INITIAL 0 0) [] c.1 c.2
        (statesAfter sampleTimes 21 (sampleGlobals XMODEM_RECEIVE_INITIAL 0 0) []) from
        ⟨hc, rfl⟩)
      (show RunsTo (fun k => sampleTimes (k + 21)) (i - 21) c.1 c.2 c.1 c.2 _ from
        ⟨pollSeq_abort _ _ _ _ hcs, rfl⟩)
    have hi21 : 21 + (i - 21) = i := by omega
    rw [hi21] at h2
    have := h2.1
    rw [hi] at this
    simp only [Option.some.injEq, Prod.mk.injEq] at this
    rw [this.1, hcs] at hstate
    cases hstate

/-! ### C1 -/

/-- C1: starting from a successfully initialised session (in `XMODEM_RECEIVE_INITIAL`), if
the inbound channel is empty on every poll and every wait is eventually polled more than
3000 ms after its recorded deadline start, then the session reaches
`XMODEM_RECEIVE_ABORT_TRANSFER`; the state sequence of the run, stays left out, is
`XMODEM_RECEIVE_INITIAL`, then 5 repetitions of `XMODEM_RECEIVE_SEND_C`,
`XMODEM_RECEIVE_WAIT_FOR_ACK`, `XMODEM_RECEIVE_TIMEOUT_ACK`, then
`XMODEM_RECEIVE_ABORT_TRANSFER`, and the run enters `XMODEM_RECEIVE_SEND_C` exactly 5 times
and `XMODEM_RECEIVE_WAIT_FOR_ACK` exactly 5 times.  Poll times are `uint32_t` values; that
they are non-decreasing is not needed. -/
theorem handshake_starvation_aborts (g0 g : Globals W P) (w : W) (t : Nat → Nat)
    (hinit : xmodem_receive_init g0 = (true, g))
    (hrange : ∀ i, t i < UINT32_MOD)
    (hempty : InboundEmpty t g w)
    (hlate : WaitsPolledLate t g w) :
    ∃ n g' w', pollSeq t n g w = some (g', w') ∧
      g'.receive_state = XMODEM_RECEIVE_ABORT_TRANSFER ∧
      (stateTrace t n g w).destutter (· ≠ ·) =
        XMODEM_RECEIVE_INITIAL ::
          ((List.replicate 5 [XMODEM_RECEIVE_SEND_C, XMODEM_RECEIVE_WAIT_FOR_ACK,
            XMODEM_RECEIVE_TIMEOUT_ACK]).flatten ++ [XMODEM_RECEIVE_ABORT_TRANSFER]) ∧
      enters XMODEM_RECEIVE_SEND_C (stateTrace t n g w) = 5 ∧
      enters XMODEM_RECEIVE_WAIT_FOR_ACK (stateTrace t n g w) = 5 := by
  have hg : g.receive_state = XMODEM_RECEIVE_INITIAL ∧
      g.callback_is_inbound_empty.isSome = true := by
    by_cases hc : (g0.callback_is_inbound_empty.isSome && g0.callback_is_outbound_full.isSome &&
        g0.callback_read_data.isSome && g0.callback_write_data.isSome) = true
    · have h1 : xmodem_receive_init g0 =
          (true, { g0 with receive_state := XMODEM_RECEIVE_INITIAL }) := by
        simp only [xmodem_receive_init, hc, if_true]
      rw [h1] at hinit
      simp only [Prod.mk.injEq, true_and] at hinit
      subst hinit
      simp only [Bool.and_eq_true] at hc
      exact ⟨rfl, hc.1.1.1⟩
    · have h1 : (xmodem_receive_init g0).1 = false := by
        simp only [xmodem_receive_init, hc, if_false]
        simp
      rw [hinit] at h1
      simp at h1
  obtain ⟨hstate, hsome⟩ := hg
  obtain ⟨f, hie⟩ := Option.isSome_iff_exists.mp hsome
  have h1 := RunsTo_one (t := t) (process_initial (t 0) g w hstate)
  simp only at h1
  obtain ⟨n, g', w', l, hrun, hfinal, hd, hs, hw⟩ :=
    handshake_rounds f 4 (fun i => t (i + 1))
      { g with receive_state := XMODEM_RECEIVE_SEND_C, ack_retry_count := 0 } w rfl hie
      (fun i => hrange (i + 1)) (InboundEmpty_shift hempty h1.1) (WaitsPolledLate_shift hlate h1.1) (by rfl)
  have hall := RunsTo_append h1 hrun
  refine ⟨1 + n, g', w', hall.1, hfinal, ?_, ?_, ?_⟩
  · simp only [stateTrace, hall.2, hstate, List.destutter]
    rw [List.singleton_append, List.destutter'_cons_pos _ (by decide), hd]
  · simp only [stateTrace, hall.2, hstate, List.singleton_append]
    simp [enters, hs]
  · simp only [stateTrace, hall.2, hstate, List.singleton_append]
    simp [enters, hw]

/-- C1 at a concrete run: the sample transport with an empty queue, polled every 2 seconds. -/
theorem handshake_starvation_aborts_witness :
    ∃ n g' w', pollSeq sampleTimes n (sampleGlobals XMODEM_RECEIVE_INITIAL 0 0) []
        = some (g', w') ∧
      g'.receive_state = XMODEM_RECEIVE_ABORT_TRANSFER ∧
      (stateTrace sampleTimes n (sampleGlobals XMODEM_RECEIVE_INITIAL 0 0) []).destutter
          (· ≠ ·) =
        XMODEM_RECEIVE_INITIAL ::
          ((List.replicate 5 [XMODEM_RECEIVE_SEND_C, XMODEM_RECEIVE_WAIT_FOR_ACK,
            XMODEM_RECEIVE_TIMEOUT_ACK]).flatten ++ [XMODEM_RECEIVE_ABORT_TRANSFER]) ∧
      enters XMODEM_RECEIVE_SEND_C
        (stateTrace sampleTimes n (sampleGlobals XMODEM_RECEIVE_INITIAL 0 0) []) = 5 ∧
      enters XMODEM_RECEIVE_WAIT_FOR_ACK
        (stateTrace sampleTimes n (sampleGlobals XMODEM_RECEIVE_INITIAL 0 0) []) = 5 :=
  handshake_starvation_aborts (sampleGlobals XMODEM_RECEIVE_UNKNOWN 0 0)
    (sampleGlobals XMODEM_RECEIVE_INITIAL 0 0) [] sampleTimes rfl
    (fun i => lt_of_le_of_lt (Nat.min_le_right _ _) (by decide))
    (sample_inbound_empty _ rfl sampleTimes)
    sample_waits_polled_late

/-! ### C2 -/

/-- C2: whatever the handshake retry counter and the recorded deadline start are, a poll in
`XMODEM_RECEIVE_WAIT_FOR_ACK` that reads the byte EOT (0x04) from the transport leaves the
session in `XMODEM_RECEIVE_TRANSFER_COMPLETE`. -/
theorem wait_for_ack_eot_completes (current_time : Nat) (g : Globals W P) (w : W)
    (o : Outcome W P) (hstate : g.receive_state = XMODEM_RECEIVE_WAIT_FOR_ACK)
    (hpoll : xmodem_receive_process current_time g w = some o)
    (hreads : o.reads EOT = true) :
    o.globals.receive_state = XMODEM_RECEIVE_TRANSFER_COMPLETE := by
  rw [wait_for_ack_reads current_time g w o EOT hstate hpoll hreads]
  simp [SOH, EOT]

/-- C2 at a concrete poll: retry counter 4, deadline start 1000, poll at 2500, EOT queued. -/
theorem wait_for_ack_eot_completes_witness :
    ∃ o, xmodem_receive_process 2500 (sampleGlobals XMODEM_RECEIVE_WAIT_FOR_ACK 1000 4) [4]
        = some o ∧
      o.reads EOT = true ∧
      o.globals.receive_state = XMODEM_RECEIVE_TRANSFER_COMPLETE := by
  refine ⟨_, rfl, ?_, ?_⟩
  · decide
  · exact wait_for_ack_eot_completes 2500
      (sampleGlobals XMODEM_RECEIVE_WAIT_FOR_ACK 1000 4) [4] _ rfl rfl (by decide)

/-! ### C3 -/

/-- C3: for every session in `XMODEM_RECEIVE_WAIT_FOR_ACK`, a poll that reads the byte CAN
(0x18) moves the session to `XMODEM_RECEIVE_SEND_C` and leaves `ack_retry_count` equal to
its value before the poll. -/
theorem wait_for_ack_can_restarts_handshake (current_time : Nat) (g : Globals W P) (w : W)
    (o : Outcome W P) (hstate : g.receive_state = XMODEM_RECEIVE_WAIT_FOR_ACK)
    (hpoll : xmodem_receive_process current_time g w = some o)
    (hreads : o.reads CAN = true) :
    o.globals.receive_state = XMODEM_RECEIVE_SEND_C ∧
    o.globals.ack_retry_count = g.ack_retry_count := by
  rw [wait_for_ack_reads current_time g w o CAN hstate hpoll hreads]
  simp [SOH, EOT, CAN]

/-- C3 at a concrete poll: retry counter 3, deadline start 1000, poll at 2500, CAN queued. -/
theorem wait_for_ack_can_restarts_handshake_witness :
    ∃ o, xmodem_receive_process 2500 (sampleGlobals XMODEM_RECEIVE_WAIT_FOR_ACK 1000 3) [24]
        = some o ∧
      o.reads CAN = true ∧
      o.globals.receive_state = XMODEM_RECEIVE_SEND_C ∧
      o.globals.ack_retry_count = 3 := by
  refine ⟨_, rfl, ?_, ?_⟩
  · decide
  · exact wait_for_ack_can_restarts_handshake 2500
      (sampleGlobals XMODEM_RECEIVE_WAIT_FOR_ACK 1000 3) [24] _ rfl rfl (by decide)

/-! ### C4 -/

/-- C4, the claim fails: a poll in `XMODEM_RECEIVE_WAIT_FOR_ACK` that reads SOH leaves the
session in `XMODEM_RECEIVE_ACK_SUCCESS`, which is not `XMODEM_RECEIVE_READ_BLOCK`. -/
theorem wait_for_ack_soh_not_read_block :
    (sampleGlobals XMODEM_RECEIVE_WAIT_FOR_ACK 1000 0).receive_state
      = XMODEM_RECEIVE_WAIT_FOR_ACK ∧
    (xmodem_receive_process 2500 (sampleGlobals XMODEM_RECEIVE_WAIT_FOR_ACK 1000 0) [1]).map
      (fun o => (o.reads SOH, o.globals.receive_state))
      = some (true, XMODEM_RECEIVE_ACK_SUCCESS) ∧
    XMODEM_RECEIVE_ACK_SUCCESS ≠ XMODEM_RECEIVE_READ_BLOCK := by
  decide

/-- C4 as amended: for every session in `XMODEM_RECEIVE_WAIT_FOR_ACK`, a poll that reads the
byte SOH (0x01) moves the session to `XMODEM_RECEIVE_ACK_SUCCESS`. -/
theorem wait_for_ack_soh_ack_success (current_time : Nat) (g : Globals W P) (w : W)
    (o : Outcome W P) (hstate : g.receive_state = XMODEM_RECEIVE_WAIT_FOR_ACK)
    (hpoll : xmodem_receive_process current_time g w = some o)
    (hreads : o.reads SOH = true) :
    o.globals.receive_state = XMODEM_RECEIVE_ACK_SUCCESS := by
  rw [wait_for_ack_reads current_time g w o SOH hstate hpoll hreads]
  simp

/-- C4 as amended, at a concrete poll: deadline start 1000, poll at 2500, SOH queued. -/
theorem wait_for_ack_soh_ack_success_witness :
    ∃ o, xmodem_receive_process 2500 (sampleGlobals XMODEM_RECEIVE_WAIT_FOR_ACK 1000 0) [1]
        = some o ∧
      o.reads SOH = true ∧
      o.globals.receive_state = XMODEM_RECEIVE_ACK_SUCCESS := by
  refine ⟨_, rfl, ?_, ?_⟩
  · decide
  · exact wait_for_ack_soh_ack_success 2500
      (sampleGlobals XMODEM_RECEIVE_WAIT_FOR_ACK 1000 0) [1] _ rfl rfl (by decide)

/-! ### C5 -/

/-- C5: for every session in `XMODEM_RECEIVE_WAIT_FOR_ACK` and every byte `b` that a poll
reads, other than SOH (0x01), EOT (0x04) and CAN (0x18), the session is in
`XMODEM_RECEIVE_ABORT_TRANSFER` after that poll; ETB (0x17) is such a byte. -/
theorem wait_for_ack_other_byte_aborts (current_time : Nat) (g : Globals W P) (w : W)
    (o : Outcome W P) (b : Nat) (hstate : g.receive_state = XMODEM_RECEIVE_WAIT_FOR_ACK)
    (hpoll : xmodem_receive_process current_time g w = some o)
    (hreads : o.reads b = true)
    (hsoh : b ≠ SOH) (heot : b ≠ EOT) (hcan : b ≠ CAN) :
    o.globals.receive_state = XMODEM_RECEIVE_ABORT_TRANSFER := by
  rw [wait_for_ack_reads current_time g w o b hstate hpoll hreads]
  simp [Ne.symm hsoh, Ne.symm heot, Ne.symm hcan]

/-- C5 at two concrete polls: ETB (0x17) queued, and the unrecognised byte 0x7f queued. -/
theorem wait_for_ack_other_byte_aborts_witness :
    (∃ o, xmodem_receive_process 2500 (sampleGlobals XMODEM_RECEIVE_WAIT_FOR_ACK 1000 0) [ETB]
        = some o ∧
      o.reads ETB = true ∧
      o.globals.receive_state = XMODEM_RECEIVE_ABORT_TRANSFER) ∧
    (∃ o, xmodem_receive_process 2500 (sampleGlobals XMODEM_RECEIVE_WAIT_FOR_ACK 1000 0) [127]
        = some o ∧
      o.reads 127 = true ∧
      o.globals.receive_state = XMODEM_RECEIVE_ABORT_TRANSFER) := by
  refine ⟨⟨_, rfl, ?_, ?_⟩, ⟨_, rfl, ?_, ?_⟩⟩
  · decide
  · exact wait_for_ack_other_byte_aborts 2500
      (sampleGlobals XMODEM_RECEIVE_WAIT_FOR_ACK 1000 0) [ETB] _ ETB rfl rfl (by decide)
      (by decide) (by decide) (by decide)
  · decide
  · exact wait_for_ack_other_byte_aborts 2500
      (sampleGlobals XMODEM_RECEIVE_WAIT_FOR_ACK 1000 0) [127] _ 127 rfl rfl (by decide)
      (by decide) (by decide) (by decide)

/-! ### C6 -/

/-- C6: `xmodem_receive_init` returns true if and only if all four capabilities are present;
the state it leaves is `XMODEM_RECEIVE_INITIAL` when it returns true and
`XMODEM_RECEIVE_UNKNOWN` (which is not `XMODEM_RECEIVE_INITIAL`) when it returns false,
whatever the state was before the call. -/
theorem xmodem_receive_init_iff_capabilities (g : Globals W P) :
    ((xmodem_receive_init g).1 = true ↔
      (g.callback_is_inbound_empty.isSome = true ∧ g.callback_is_outbound_full.isSome = true ∧
        g.callback_read_data.isSome = true ∧ g.callback_write_data.isSome = true)) ∧
    (xmodem_receive_init g).2.receive_state =
      (if (xmodem_receive_init g).1 = true then XMODEM_RECEIVE_INITIAL
       else XMODEM_RECEIVE_UNKNOWN) ∧
    XMODEM_RECEIVE_UNKNOWN ≠ XMODEM_RECEIVE_INITIAL := by
  have hcond : (g.callback_is_inbound_empty.isSome && g.callback_is_outbound_full.isSome &&
      g.callback_read_data.isSome && g.callback_write_data.isSome) = true ↔
      (g.callback_is_inbound_empty.isSome = true ∧ g.callback_is_outbound_full.isSome = true ∧
        g.callback_read_data.isSome = true ∧ g.callback_write_data.isSome = true) := by
    simp [Bool.and_eq_true, and_assoc]
  by_cases h : (g.callback_is_inbound_empty.isSome && g.callback_is_outbound_full.isSome &&
      g.callback_read_data.isSome && g.callback_write_data.isSome) = true
  · have h1 : xmodem_receive_init g =
        (true, { g with receive_state := XMODEM_RECEIVE_INITIAL }) := by
      simp only [xmodem_receive_init, h, if_true]
    rw [h1]
    exact ⟨⟨fun _ => hcond.mp h, fun _ => rfl⟩, by simp, by decide⟩
  · have h1 : xmodem_receive_init g =
        (false, { g with receive_state := XMODEM_RECEIVE_UNKNOWN }) := by
      simp only [xmodem_receive_init, h, if_false]
      simp
    rw [h1]
    exact ⟨⟨fun hf => by simp at hf, fun hc => absurd (hcond.mpr hc) h⟩, by simp, by decide⟩

/-! ### C7 -/

/-- C7, the claim fails: `xmodem_receive_cleanup` leaves the handshake retry counter and the
recorded deadline start as they were (here 3 and 1000), not 0. -/
theorem xmodem_receive_cleanup_keeps_counters :
    (xmodem_receive_cleanup (sampleGlobals XMODEM_RECEIVE_WAIT_FOR_ACK 1000 3)).2.ack_retry_count
      = 3 ∧
    (xmodem_receive_cleanup (sampleGlobals XMODEM_RECEIVE_WAIT_FOR_ACK 1000 3)).2.stopwatch
      = 1000 ∧
    (xmodem_receive_cleanup (sampleGlobals XMODEM_RECEIVE_WAIT_FOR_ACK 1000 3)).2.ack_retry_count
      ≠ 0 ∧
    (xmodem_receive_cleanup (sampleGlobals XMODEM_RECEIVE_WAIT_FOR_ACK 1000 3)).2.stopwatch
      ≠ 0 := by
  decide

/-- C7 as amended: for every session, `xmodem_receive_cleanup` returns true, detaches all
four capabilities, sets the state to `XMODEM_RECEIVE_UNKNOWN`, zeroes `control_character`,
`returned_size`, `inbound`, `payload_buffer` and `payload_buffer_position`, and leaves
`payload_size`, `current_packet_id`, `current_packet`, `stopwatch` and `ack_retry_count`
unchanged. -/
theorem xmodem_receive_cleanup_effect (g : Globals W P) :
    xmodem_receive_cleanup g =
      (true,
        { callback_is_inbound_empty := none
          callback_is_outbound_full := none
          callback_read_data := none
          callback_write_data := none
          receive_state := XMODEM_RECEIVE_UNKNOWN
          control_character := 0
          returned_size := 0
          inbound := 0
          payload_buffer := 0
          payload_buffer_position := 0
          payload_size := g.payload_size
          current_packet_id := g.current_packet_id
          current_packet := g.current_packet
          stopwatch := g.stopwatch
          ack_retry_count := g.ack_retry_count }) := by
  rfl

/-! ### C8 -/

/-- C8: `XMODEM_RECEIVE_ABORT_TRANSFER` is terminal.  For every session in that state and
every poll time, a poll returns, leaves the whole static storage (the state included) and
the transport as they were and calls no capability; hence after any number of further polls,
at any times, the storage is still the same and the state still
`XMODEM_RECEIVE_ABORT_TRANSFER`. -/
theorem abort_transfer_terminal (g : Globals W P) (w : W)
    (hstate : g.receive_state = XMODEM_RECEIVE_ABORT_TRANSFER) :
    (∀ current_time : Nat,
      xmodem_receive_process current_time g w = some ⟨true, g, w, []⟩) ∧
    (∀ (t : Nat → Nat) (n : Nat),
      pollSeq t n g w = some (g, w) ∧
      (pollSeq t n g w).map (fun c => c.1.receive_state)
        = some XMODEM_RECEIVE_ABORT_TRANSFER) := by
  refine ⟨fun current_time => process_abort current_time g w hstate, fun t n => ?_⟩
  rw [pollSeq_abort t n g w hstate]
  simp [hstate]

/-- C8 at a concrete session: aborted with a byte still queued; the byte stays queued. -/
theorem abort_transfer_terminal_witness :
    (xmodem_receive_process 7000 (sampleGlobals XMODEM_RECEIVE_ABORT_TRANSFER 1000 5) [4]).map
      (fun o => (o.globals.receive_state, o.world, o.calls))
      = some (XMODEM_RECEIVE_ABORT_TRANSFER, [4], []) ∧
    (pollSeq sampleTimes 9 (sampleGlobals XMODEM_RECEIVE_ABORT_TRANSFER 1000 5) [4]).map
      (fun c => c.1.receive_state) = some XMODEM_RECEIVE_ABORT_TRANSFER := by
  have h := abort_transfer_terminal (sampleGlobals XMODEM_RECEIVE_ABORT_TRANSFER 1000 5) [4] rfl
  refine ⟨?_, (h.2 sampleTimes 9).2⟩
  rw [h.1 7000]
  rfl

/-! ### C9 -/

/-- C9, the code departs from the claim: the `switch` has no case for
`XMODEM_RECEIVE_TRANSFER_COMPLETE`, so a poll of a completed session takes the `default`
branch and leaves `XMODEM_RECEIVE_UNKNOWN`, and the next poll leaves
`XMODEM_RECEIVE_ABORT_TRANSFER`.  The same is seen on a whole run: an initialised session
whose transport delivers EOT is in `XMODEM_RECEIVE_TRANSFER_COMPLETE` after 3 polls, in
`XMODEM_RECEIVE_UNKNOWN` after 4 and in `XMODEM_RECEIVE_ABORT_TRANSFER` after 5. -/
theorem transfer_complete_not_terminal :
    (xmodem_receive_process 0 (sampleGlobals XMODEM_RECEIVE_TRANSFER_COMPLETE 0 0) []).map
      (fun o => xmodem_receive_state o.globals) = some XMODEM_RECEIVE_UNKNOWN ∧
    (pollSeq (fun _ => 0) 2 (sampleGlobals XMODEM_RECEIVE_TRANSFER_COMPLETE 0 0) []).map
      (fun c => xmodem_receive_state c.1) = some XMODEM_RECEIVE_ABORT_TRANSFER ∧
    (pollSeq sampleTimes 3 (sampleGlobals XMODEM_RECEIVE_INITIAL 0 0) [EOT]).map
      (fun c => xmodem_receive_state c.1) = some XMODEM_RECEIVE_TRANSFER_COMPLETE ∧
    (pollSeq sampleTimes 4 (sampleGlobals XMODEM_RECEIVE_INITIAL 0 0) [EOT]).map
      (fun c => xmodem_receive_state c.1) = some XMODEM_RECEIVE_UNKNOWN ∧
    (pollSeq sampleTimes 5 (sampleGlobals XMODEM_RECEIVE_INITIAL 0 0) [EOT]).map
      (fun c => xmodem_receive_state c.1) = some XMODEM_RECEIVE_ABORT_TRANSFER := by
  decide

/-! ### C10 -/

/-- C10, the claim fails: with an outbound channel that is not saturated, a poll in
`XMODEM_RECEIVE_SEND_C` calls no capability at all, so it issues no write. -/
theorem send_c_issues_no_write :
    (queue_is_outbound_full []).1 = false ∧
    (xmodem_receive_process 2500 (sampleGlobals XMODEM_RECEIVE_SEND_C 0 0) []).map
      (fun o => (o.calls, (o.calls.filter Call.isWrite).length)) = some ([], 0) := by
  decide

/-- C10 as amended: for every session in `XMODEM_RECEIVE_SEND_C`, whatever the transport, a
poll calls no capability (it neither consults `is_outbound_full` nor writes), records the
poll time, as a `uint32_t`, as the deadline start, moves to `XMODEM_RECEIVE_WAIT_FOR_ACK`,
and changes nothing else. -/
theorem send_c_records_deadline (current_time : Nat) (g : Globals W P) (w : W)
    (hstate : g.receive_state = XMODEM_RECEIVE_SEND_C) :
    xmodem_receive_process current_time g w =
      some ⟨true, { g with receive_state := XMODEM_RECEIVE_WAIT_FOR_ACK,
                           stopwatch := current_time % UINT32_MOD }, w, []⟩ :=
  process_send_c current_time g w hstate

/-- C10 as amended, at a concrete poll at time 2500. -/
theorem send_c_records_deadline_witness :
    (xmodem_receive_process 2500 (sampleGlobals XMODEM_RECEIVE_SEND_C 0 0) []).map
      (fun o => (o.globals.receive_state, o.globals.stopwatch, o.world, o.calls))
      = some (XMODEM_RECEIVE_WAIT_FOR_ACK, 2500, [], []) := by
  rw [send_c_records_deadline 2500 (sampleGlobals XMODEM_RECEIVE_SEND_C 0 0) [] rfl]
  decide

/-! ### Shape of a poll -/

/-- The capability calls of a poll: none, or, in one of the two reading states, one call of
`is_inbound_empty` followed, when the channel is not empty, by one call of the read
capability for one byte. -/
theorem process_calls (current_time : Nat) (g : Globals W P) (w : W) (o : Outcome W P)
    (hpoll : xmodem_receive_process current_time g w = some o) :
    o.calls = [] ∨
    ((g.receive_state = XMODEM_RECEIVE_WAIT_FOR_ACK ∨
        g.receive_state = XMODEM_RECEIVE_READ_BLOCK) ∧
      (o.calls = [Call.is_inbound_empty true] ∨
        ∃ r b s, o.calls = [Call.is_inbound_empty false, Call.read_data 1 r b s])) := by
  cases hs : g.receive_state <;> cases hie : g.callback_is_inbound_empty <;>
    cases hrd : g.callback_read_data <;>
    simp only [xmodem_receive_process, hs, hie, hrd] at hpoll <;>
    (try split_ifs at hpoll) <;>
    (try cases hpoll) <;>
    simp_all

/-- The poll of source lines 161-165. -/
theorem process_unknown (current_time : Nat) (g : Globals W P) (w : W)
    (hstate : g.receive_state = XMODEM_RECEIVE_UNKNOWN) :
    xmodem_receive_process current_time g w =
      some ⟨true, { g with receive_state := XMODEM_RECEIVE_ABORT_TRANSFER }, w, []⟩ := by
  unfold xmodem_receive_process
  simp only [hstate]

/-- The poll of source lines 231-234, for the state `XMODEM_RECEIVE_ACK_SUCCESS`, which has
no `case` of its own. -/
theorem process_ack_success (current_time : Nat) (g : Globals W P) (w : W)
    (hstate : g.receive_state = XMODEM_RECEIVE_ACK_SUCCESS) :
    xmodem_receive_process current_time g w =
      some ⟨true, { g with receive_state := XMODEM_RECEIVE_UNKNOWN }, w, []⟩ := by
  unfold xmodem_receive_process
  simp only [hstate]

/-- The poll of source lines 200-205. -/
theorem process_read_block_timeout (current_time : Nat) (g : Globals W P) (w : W)
    (hstate : g.receive_state = XMODEM_RECEIVE_READ_BLOCK_TIMEOUT) :
    xmodem_receive_process current_time g w =
      some ⟨true, { g with receive_state := XMODEM_RECEIVE_ABORT_TRANSFER,
                           stopwatch := current_time % UINT32_MOD }, w, []⟩ := by
  unfold xmodem_receive_process
  simp only [hstate]

/-! ### C13 -/

/-- C13: for every session state, poll time and transport behaviour, a single call of
`xmodem_receive_process` makes at most one call to the read capability and at most one call
to the write capability, and any read it makes requests exactly 1 byte. -/
theorem process_at_most_one_read_write (current_time : Nat) (g : Globals W P) (w : W)
    (o : Outcome W P) (hpoll : xmodem_receive_process current_time g w = some o) :
    (o.calls.filter Call.isRead).length ≤ 1 ∧
    (o.calls.filter Call.isWrite).length ≤ 1 ∧
    ∀ requested_size ret buffer returned_size,
      Call.read_data requested_size ret buffer returned_size ∈ o.calls →
      requested_size = 1 := by
  refine ⟨?_, ?_, ?_⟩
  · rcases process_calls current_time g w o hpoll with h | ⟨_, h | ⟨r, b, s, h⟩⟩ <;>
      rw [h] <;> simp [Call.isRead]
  · rcases process_calls current_time g w o hpoll with h | ⟨_, h | ⟨r, b, s, h⟩⟩ <;>
      rw [h] <;> simp [Call.isWrite]
  · intro requested_size ret buffer returned_size hmem
    rcases process_calls current_time g w o hpoll with h | ⟨_, h | ⟨r, b, s, h⟩⟩ <;>
      rw [h] at hmem <;> simp at hmem
    exact hmem.1

/-- C13 at a concrete poll: a wait with three bytes queued reads one of them, asking for one
byte, and writes nothing. -/
theorem process_at_most_one_read_write_witness :
    ∃ o, xmodem_receive_process 2500 (sampleGlobals XMODEM_RECEIVE_WAIT_FOR_ACK 1000 0)
        [24, 1, 4] = some o ∧
      o.calls = [Call.is_inbound_empty false, Call.read_data 1 true 24 1] ∧
      o.world = [1, 4] ∧
      (o.calls.filter Call.isRead).length ≤ 1 ∧
      (o.calls.filter Call.isWrite).length ≤ 1 ∧
      ∀ requested_size ret buffer returned_size,
        Call.read_data requested_size ret buffer returned_size ∈ o.calls →
        requested_size = 1 := by
  refine ⟨_, rfl, ?_, ?_, ?_⟩
  · decide
  · decide
  · exact process_at_most_one_read_write 2500
      (sampleGlobals XMODEM_RECEIVE_WAIT_FOR_ACK 1000 0) [24, 1, 4] _ rfl

/-! ### C16 -/

/-- C16: after a poll in `XMODEM_RECEIVE_WAIT_FOR_ACK` has read SOH, the session is in
`XMODEM_RECEIVE_ABORT_TRANSFER` after exactly two further polls, whatever the poll times and
the transport: the first further poll leaves `XMODEM_RECEIVE_UNKNOWN` (the state
`XMODEM_RECEIVE_ACK_SUCCESS` set on SOH has no `case` and takes the `default` branch), the
second leaves `XMODEM_RECEIVE_ABORT_TRANSFER`, and neither invokes a capability nor changes
the transport. -/
theorem soh_aborts_after_two_polls (current_time t1 t2 : Nat) (g : Globals W P) (w : W)
    (o : Outcome W P) (hstate : g.receive_state = XMODEM_RECEIVE_WAIT_FOR_ACK)
    (hpoll : xmodem_receive_process current_time g w = some o)
    (hreads : o.reads SOH = true) :
    xmodem_receive_process t1 o.globals o.world =
      some ⟨true, { g with receive_state := XMODEM_RECEIVE_UNKNOWN }, o.world, []⟩ ∧
    xmodem_receive_process t2 { g with receive_state := XMODEM_RECEIVE_UNKNOWN } o.world =
      some ⟨true, { g with receive_state := XMODEM_RECEIVE_ABORT_TRANSFER }, o.world, []⟩ ∧
    XMODEM_RECEIVE_UNKNOWN ≠ XMODEM_RECEIVE_ABORT_TRANSFER := by
  have hg := wait_for_ack_reads current_time g w o SOH hstate hpoll hreads
  simp only [if_true] at hg
  refine ⟨?_, ?_, by decide⟩
  · rw [process_ack_success t1 o.globals o.world (by rw [hg]), hg]
  · rw [process_unknown t2 _ o.world rfl]

/-- C16 at a concrete run: SOH and two more bytes queued; the two further polls, at times
2600 and 9000, leave the two bytes queued. -/
theorem soh_aborts_after_two_polls_witness :
    ∃ o, xmodem_receive_process 2500 (sampleGlobals XMODEM_RECEIVE_WAIT_FOR_ACK 1000 0)
        [1, 1, 254] = some o ∧
      o.reads SOH = true ∧
      (xmodem_receive_process 2600 o.globals o.world).map
        (fun o1 => (o1.globals.receive_state, o1.world, o1.calls))
        = some (XMODEM_RECEIVE_UNKNOWN, [1, 254], []) ∧
      (pollSeq (fun i => 2600 + 6400 * i) 2 o.globals o.world).map
        (fun c => (c.1.receive_state, c.2))
        = some (XMODEM_RECEIVE_ABORT_TRANSFER, [1, 254]) := by
  refine ⟨_, rfl, by decide, ?_, ?_⟩
  · rw [(soh_aborts_after_two_polls 2500 2600 9000
      (sampleGlobals XMODEM_RECEIVE_WAIT_FOR_ACK 1000 0) [1, 1, 254] _ rfl rfl (by decide)).1]
    rfl
  · decide

/-! ### C18 -/

/-- C18: timeout takes precedence over pending input.  For every session in
`XMODEM_RECEIVE_WAIT_FOR_ACK` polled at a time `t` with `t > stopwatch + 3000`, the sum
computed modulo `2 ^ 32`, the poll moves to `XMODEM_RECEIVE_TIMEOUT_ACK`, changes nothing
else, invokes no capability (neither `is_inbound_empty` nor the read capability) and leaves
the transport, with any pending byte, as it was. -/
theorem wait_for_ack_timeout_precedes_input (current_time : Nat) (g : Globals W P) (w : W)
    (hstate : g.receive_state = XMODEM_RECEIVE_WAIT_FOR_ACK)
    (hlate : current_time % UINT32_MOD > (g.stopwatch + C_ACK_TIMEOUT) % UINT32_MOD) :
    xmodem_receive_process current_time g w =
      some ⟨true, { g with receive_state := XMODEM_RECEIVE_TIMEOUT_ACK }, w, []⟩ :=
  process_wait_timed_out current_time g w hstate hlate

/-- C18 at a concrete poll: deadline start 1000, poll at 4001, EOT pending and left
pending. -/
theorem wait_for_ack_timeout_precedes_input_witness :
    (xmodem_receive_process 4001 (sampleGlobals XMODEM_RECEIVE_WAIT_FOR_ACK 1000 0) [EOT]).map
      (fun o => (o.globals.receive_state, o.world, o.calls))
      = some (XMODEM_RECEIVE_TIMEOUT_ACK, [EOT], []) := by
  rw [wait_for_ack_timeout_precedes_input 4001
    (sampleGlobals XMODEM_RECEIVE_WAIT_FOR_ACK 1000 0) [EOT] rfl (by decide)]
  rfl

/-! ### C14 -/

/-- Where the sum `stopwatch + C_ACK_TIMEOUT` does not wrap, a poll in
`XMODEM_RECEIVE_WAIT_FOR_ACK` at a time `t ≥ stopwatch` moves to
`XMODEM_RECEIVE_TIMEOUT_ACK` exactly when more than `C_ACK_TIMEOUT` has elapsed. -/
theorem wait_for_ack_timeout_iff_of_no_wrap (current_time : Nat) (g : Globals W P) (w : W)
    (o : Outcome W P) (hstate : g.receive_state = XMODEM_RECEIVE_WAIT_FOR_ACK)
    (hrange : current_time < UINT32_MOD)
    (hnowrap : g.stopwatch + C_ACK_TIMEOUT < UINT32_MOD)
    (hpoll : xmodem_receive_process current_time g w = some o) :
    o.globals.receive_state = XMODEM_RECEIVE_TIMEOUT_ACK ↔
      current_time - g.stopwatch > C_ACK_TIMEOUT := by
  have h1 : current_time % UINT32_MOD = current_time := Nat.mod_eq_of_lt hrange
  have h2 : (g.stopwatch + C_ACK_TIMEOUT) % UINT32_MOD = g.stopwatch + C_ACK_TIMEOUT :=
    Nat.mod_eq_of_lt hnowrap
  cases hie : g.callback_is_inbound_empty <;> cases hrd : g.callback_read_data <;>
    simp only [xmodem_receive_process, hstate, hie, hrd, h1, h2] at hpoll <;>
    (try split_ifs at hpoll) <;>
    (try cases hpoll) <;>
    simp_all <;> omega

/-- Where the sum `stopwatch + READ_BLOCK_TIMEOUT` does not wrap, a poll in
`XMODEM_RECEIVE_READ_BLOCK` at a time `t ≥ stopwatch` moves to
`XMODEM_RECEIVE_READ_BLOCK_TIMEOUT` exactly when more than `READ_BLOCK_TIMEOUT` has elapsed. -/
theorem read_block_timeout_iff_of_no_wrap (current_time : Nat) (g : Globals W P) (w : W)
    (o : Outcome W P) (hstate : g.receive_state = XMODEM_RECEIVE_READ_BLOCK)
    (hrange : current_time < UINT32_MOD)
    (hnowrap : g.stopwatch + READ_BLOCK_TIMEOUT < UINT32_MOD)
    (hpoll : xmodem_receive_process current_time g w = some o) :
    o.globals.receive_state = XMODEM_RECEIVE_READ_BLOCK_TIMEOUT ↔
      current_time - g.stopwatch > READ_BLOCK_TIMEOUT := by
  have h1 : current_time % UINT32_MOD = current_time := Nat.mod_eq_of_lt hrange
  have h2 : (g.stopwatch + READ_BLOCK_TIMEOUT) % UINT32_MOD = g.stopwatch + READ_BLOCK_TIMEOUT :=
    Nat.mod_eq_of_lt hnowrap
  cases hie : g.callback_is_inbound_empty <;> cases hrd : g.callback_read_data <;>
    simp only [xmodem_receive_process, hstate, hie, hrd, h1, h2] at hpoll <;>
    (try split_ifs at hpoll) <;>
    (try cases hpoll) <;>
    simp_all <;> omega

/-- C14, the code departs from the claim: the deadline `stopwatch + C_ACK_TIMEOUT` is
computed in `uint32_t` and wraps.  A session initialised and polled three times at the
timestamp 4294967295 records that timestamp as the deadline start on the second poll and
times out on the third, at the same timestamp, with 0 ms elapsed; likewise a poll in
`XMODEM_RECEIVE_READ_BLOCK` at the timestamp of its deadline start 4294967295 moves to
`XMODEM_RECEIVE_READ_BLOCK_TIMEOUT`. -/
theorem timeout_fires_at_deadline_start :
    (pollSeq (fun _ => 4294967295) 2 (sampleGlobals XMODEM_RECEIVE_INITIAL 0 0) []).map
      (fun c => (c.1.receive_state, c.1.stopwatch))
      = some (XMODEM_RECEIVE_WAIT_FOR_ACK, 4294967295) ∧
    (pollSeq (fun _ => 4294967295) 3 (sampleGlobals XMODEM_RECEIVE_INITIAL 0 0) []).map
      (fun c => c.1.receive_state) = some XMODEM_RECEIVE_TIMEOUT_ACK ∧
    ¬ (4294967295 - 4294967295 > C_ACK_TIMEOUT) ∧
    (xmodem_receive_process 4294967295
      (sampleGlobals XMODEM_RECEIVE_READ_BLOCK 4294967295 0) []).map
      (fun o => o.globals.receive_state) = some XMODEM_RECEIVE_READ_BLOCK_TIMEOUT ∧
    ¬ (4294967295 - 4294967295 > READ_BLOCK_TIMEOUT) := by
  decide

/-! ### What a poll keeps -/

/-- A poll does not change the installed capabilities. -/
theorem process_callbacks (current_time : Nat) (g : Globals W P) (w : W) (o : Outcome W P)
    (hpoll : xmodem_receive_process current_time g w = some o) :
    o.globals.callback_is_inbound_empty = g.callback_is_inbound_empty ∧
    o.globals.callback_is_outbound_full = g.callback_is_outbound_full ∧
    o.globals.callback_read_data = g.callback_read_data ∧
    o.globals.callback_write_data = g.callback_write_data := by
  cases hs : g.receive_state <;> cases hie : g.callback_is_inbound_empty <;>
    cases hrd : g.callback_read_data <;>
    simp only [xmodem_receive_process, hs, hie, hrd] at hpoll <;>
    (try split_ifs at hpoll) <;>
    (try cases hpoll) <;>
    simp_all

/-- A poll returns unless it is made in a reading state with the `is_inbound_empty` or the
read capability missing. -/
theorem process_returns (current_time : Nat) (g : Globals W P) (w : W)
    (hcaps : g.receive_state = XMODEM_RECEIVE_WAIT_FOR_ACK ∨
        g.receive_state = XMODEM_RECEIVE_READ_BLOCK →
      g.callback_is_inbound_empty.isSome = true ∧ g.callback_read_data.isSome = true) :
    ∃ o, xmodem_receive_process current_time g w = some o := by
  cases hs : g.receive_state <;> cases hie : g.callback_is_inbound_empty <;>
    cases hrd : g.callback_read_data <;>
    simp only [xmodem_receive_process, hs, hie, hrd] <;>
    (try split_ifs) <;>
    simp_all

/-- A poll made in one of the eight handshake states leaves one of them, other than
`XMODEM_RECEIVE_INITIAL`; and it leaves a state in which the handshake is in progress only
when it was made in such a state or in `XMODEM_RECEIVE_INITIAL`. -/
theorem process_handshake_states (current_time : Nat) (g : Globals W P) (w : W)
    (o : Outcome W P) (hpoll : xmodem_receive_process current_time g w = some o)
    (hg : g.receive_state ∈ handshakeStates) :
    o.globals.receive_state ∈ handshakeStates ∧
    o.globals.receive_state ≠ XMODEM_RECEIVE_INITIAL ∧
    (handshaking o.globals.receive_state = true →
      handshaking g.receive_state = true ∨ g.receive_state = XMODEM_RECEIVE_INITIAL) := by
  cases hs : g.receive_state <;> cases hie : g.callback_is_inbound_empty <;>
    cases hrd : g.callback_read_data <;>
    simp only [xmodem_receive_process, hs, hie, hrd] at hpoll <;>
    (try split_ifs at hpoll) <;>
    (try cases hpoll) <;>
    simp_all [handshakeStates, handshaking]

/-- The bound on the handshake retry counter is kept by a poll: if the counter is at most
`SEND_C_MAX_RETRIES`, and below it while the handshake is in progress, the same holds after
the poll. -/
theorem process_retry_count (current_time : Nat) (g : Globals W P) (w : W)
    (o : Outcome W P) (hpoll : xmodem_receive_process current_time g w = some o)
    (hg : g.receive_state ∈ handshakeStates)
    (hcount : g.ack_retry_count ≤ SEND_C_MAX_RETRIES)
    (hprogress : handshaking g.receive_state = true → g.ack_retry_count < SEND_C_MAX_RETRIES) :
    o.globals.ack_retry_count ≤ SEND_C_MAX_RETRIES ∧
    (handshaking o.globals.receive_state = true →
      o.globals.ack_retry_count < SEND_C_MAX_RETRIES) := by
  cases hs : g.receive_state <;> cases hie : g.callback_is_inbound_empty <;>
    cases hrd : g.callback_read_data <;>
    simp only [xmodem_receive_process, hs, hie, hrd] at hpoll <;>
    (try split_ifs at hpoll) <;>
    (try cases hpoll) <;>
    simp_all [handshakeStates, handshaking, SEND_C_MAX_RETRIES, UINT32_MOD] <;>
    omega

/-! ### Runs after a successful initialisation -/

/-- A successful `xmodem_receive_init` leaves the state `XMODEM_RECEIVE_INITIAL` with all
four capabilities installed, and changes nothing but the state. -/
theorem init_success (g0 g : Globals W P) (hinit : xmodem_receive_init g0 = (true, g)) :
    g = { g0 with receive_state := XMODEM_RECEIVE_INITIAL } ∧ allPresent g = true := by
  by_cases hc : (g0.callback_is_inbound_empty.isSome && g0.callback_is_outbound_full.isSome &&
      g0.callback_read_data.isSome && g0.callback_write_data.isSome) = true
  · have h1 : xmodem_receive_init g0 =
        (true, { g0 with receive_state := XMODEM_RECEIVE_INITIAL }) := by
      simp only [xmodem_receive_init, hc, if_true]
    rw [h1] at hinit
    simp only [Prod.mk.injEq, true_and] at hinit
    subst hinit
    exact ⟨rfl, hc⟩
  · have h1 : (xmodem_receive_init g0).1 = false := by
      simp only [xmodem_receive_init, hc, if_false]
      simp
    rw [hinit] at h1
    simp at h1

/-- From a handshake state, with the `is_inbound_empty` and read capabilities installed, a
run of any length calls no null capability, stays within the handshake states and keeps the
four capabilities as they are. -/
theorem pollSeq_handshake_states (n : Nat) :
    ∀ (t : Nat → Nat) (g : Globals W P) (w : W),
      g.receive_state ∈ handshakeStates →
      g.callback_is_inbound_empty.isSome = true →
      g.callback_read_data.isSome = true →
      ∃ g' w', pollSeq t n g w = some (g', w') ∧
        g'.receive_state ∈ handshakeStates ∧
        g'.callback_is_inbound_empty = g.callback_is_inbound_empty ∧
        g'.callback_is_outbound_full = g.callback_is_outbound_full ∧
        g'.callback_read_data = g.callback_read_data ∧
        g'.callback_write_data = g.callback_write_data := by
  induction n with
  | zero =>
    intro t g w hg _ _
    exact ⟨g, w, rfl, hg, rfl, rfl, rfl, rfl⟩
  | succ n ih =>
    intro t g w hg hie hrd
    obtain ⟨o, ho⟩ := process_returns (t 0) g w (fun _ => ⟨hie, hrd⟩)
    obtain ⟨h1, h2, h3, h4⟩ := process_callbacks (t 0) g w o ho
    obtain ⟨hs, _, _⟩ := process_handshake_states (t 0) g w o ho hg
    obtain ⟨g', w', hrun, hs', e1, e2, e3, e4⟩ :=
      ih (fun i => t (i + 1)) o.globals o.world hs (by rw [h1]; exact hie)
        (by rw [h3]; exact hrd)
    refine ⟨g', w', ?_, hs', e1.trans h1, e2.trans h2, e3.trans h3, e4.trans h4⟩
    unfold pollSeq
    simp only [ho]
    exact hrun

/-- The bound on the handshake retry counter is kept along a run. -/
theorem pollSeq_retry_count (n : Nat) :
    ∀ (t : Nat → Nat) (g g' : Globals W P) (w w' : W),
      g.receive_state ∈ handshakeStates →
      g.ack_retry_count ≤ SEND_C_MAX_RETRIES →
      (handshaking g.receive_state = true → g.ack_retry_count < SEND_C_MAX_RETRIES) →
      pollSeq t n g w = some (g', w') →
      g'.ack_retry_count ≤ SEND_C_MAX_RETRIES ∧
      (handshaking g'.receive_state = true → g'.ack_retry_count < SEND_C_MAX_RETRIES) := by
  induction n with
  | zero =>
    intro t g g' w w' _ hc hp hrun
    simp only [pollSeq, Option.some.injEq, Prod.mk.injEq] at hrun
    obtain ⟨rfl, rfl⟩ := hrun
    exact ⟨hc, hp⟩
  | succ n ih =>
    intro t g g' w w' hg hc hp hrun
    unfold pollSeq at hrun
    cases ho : xmodem_receive_process (t 0) g w with
    | none => simp [ho] at hrun
    | some o =>
      simp only [ho] at hrun
      obtain ⟨hs, _, _⟩ := process_handshake_states (t 0) g w o ho hg
      obtain ⟨hc', hp'⟩ := process_retry_count (t 0) g w o ho hg hc hp
      exact ih _ _ _ _ _ hs hc' hp' hrun

/-! ### C12 -/

/-- C12: the handshake retry counter never exceeds its maximum of 5.  After a successful
`xmodem_receive_init`, a run of one poll from `XMODEM_RECEIVE_INITIAL` followed by any number
of further polls, at arbitrary times and over an arbitrary transport, calls no null
capability and ends with `ack_retry_count ≤ 5`; and whenever a poll in
`XMODEM_RECEIVE_TIMEOUT_ACK` raises the counter to 5, the state after that poll is
`XMODEM_RECEIVE_ABORT_TRANSFER`. -/
theorem ack_retry_count_bounded (g0 g : Globals W P) (w : W) (t : Nat → Nat) (n : Nat)
    (hinit : xmodem_receive_init g0 = (true, g)) :
    (∃ g' w', pollSeq t (n + 1) g w = some (g', w') ∧
      g'.ack_retry_count ≤ SEND_C_MAX_RETRIES) ∧
    (∀ (current_time : Nat) (h : Globals W P) (v : W) (o : Outcome W P),
      h.receive_state = XMODEM_RECEIVE_TIMEOUT_ACK →
      xmodem_receive_process current_time h v = some o →
      o.globals.ack_retry_count = SEND_C_MAX_RETRIES →
      o.globals.receive_state = XMODEM_RECEIVE_ABORT_TRANSFER) := by
  obtain ⟨hg, hall⟩ := init_success g0 g hinit
  have hstate : g.receive_state = XMODEM_RECEIVE_INITIAL := by rw [hg]
  simp only [allPresent, Bool.and_eq_true] at hall
  constructor
  · obtain ⟨g', w', hrun, _⟩ := pollSeq_handshake_states (n + 1) t g w
      (by rw [hstate]; decide) hall.1.1.1 hall.1.2
    refine ⟨g', w', hrun, ?_⟩
    have hrun' := hrun
    unfold pollSeq at hrun'
    rw [process_initial (t 0) g w hstate] at hrun'
    simp only at hrun'
    exact (pollSeq_retry_count n (fun i => t (i + 1))
      { g with receive_state := XMODEM_RECEIVE_SEND_C, ack_retry_count := 0 } g' w w'
      (by simp [handshakeStates]) (by simp) (by simp [SEND_C_MAX_RETRIES]) hrun').1
  · intro current_time h v o hs ho hfive
    rw [process_timeout_ack current_time h v hs] at ho
    cases ho
    simp only at hfive ⊢
    rw [hfive]
    simp

/-- C12 at a concrete run: the sample transport with an empty queue, 40 polls 2 seconds
apart; the counter ends at 5, and a poll in `XMODEM_RECEIVE_TIMEOUT_ACK` with the counter at
4 raises it to 5 and aborts. -/
theorem ack_retry_count_bounded_witness :
    (∃ g' w', pollSeq sampleTimes 40 (sampleGlobals XMODEM_RECEIVE_INITIAL 0 0) []
        = some (g', w') ∧ g'.ack_retry_count ≤ SEND_C_MAX_RETRIES) ∧
    (pollSeq sampleTimes 40 (sampleGlobals XMODEM_RECEIVE_INITIAL 0 0) []).map
      (fun c => c.1.ack_retry_count) = some 5 ∧
    ∃ o, xmodem_receive_process 9000 (sampleGlobals XMODEM_RECEIVE_TIMEOUT_ACK 1000 4) []
        = some o ∧
      o.globals.ack_retry_count = SEND_C_MAX_RETRIES ∧
      o.globals.receive_state = XMODEM_RECEIVE_ABORT_TRANSFER := by
  have h := ack_retry_count_bounded (sampleGlobals XMODEM_RECEIVE_UNKNOWN 0 0)
    (sampleGlobals XMODEM_RECEIVE_INITIAL 0 0) [] sampleTimes 39 rfl
  refine ⟨h.1, by decide, _, rfl, rfl, ?_⟩
  exact h.2 9000 (sampleGlobals XMODEM_RECEIVE_TIMEOUT_ACK 1000 4) [] _ rfl rfl rfl

/-! ### C17 -/

/-- C17: block reception is unreachable.  After a successful `xmodem_receive_init`, a run of
any number of polls, at arbitrary times and over an arbitrary transport, calls no null
capability and ends in one of `XMODEM_RECEIVE_INITIAL`, `XMODEM_RECEIVE_SEND_C`,
`XMODEM_RECEIVE_WAIT_FOR_ACK`, `XMODEM_RECEIVE_TIMEOUT_ACK`, `XMODEM_RECEIVE_ACK_SUCCESS`,
`XMODEM_RECEIVE_TRANSFER_COMPLETE`, `XMODEM_RECEIVE_UNKNOWN`,
`XMODEM_RECEIVE_ABORT_TRANSFER`, never in one of the six block states. -/
theorem block_states_unreachable (g0 g : Globals W P) (w : W) (t : Nat → Nat) (n : Nat)
    (hinit : xmodem_receive_init g0 = (true, g)) :
    ∃ g' w', pollSeq t n g w = some (g', w') ∧
      g'.receive_state ∈ handshakeStates ∧
      g'.receive_state ∉ blockStates := by
  obtain ⟨hg, hall⟩ := init_success g0 g hinit
  have hstate : g.receive_state = XMODEM_RECEIVE_INITIAL := by rw [hg]
  simp only [allPresent, Bool.and_eq_true] at hall
  obtain ⟨g', w', hrun, hs, _⟩ := pollSeq_handshake_states n t g w
    (by rw [hstate]; decide) hall.1.1.1 hall.1.2
  refine ⟨g', w', hrun, hs, ?_⟩
  revert hs
  cases g'.receive_state <;> simp [handshakeStates, blockStates]

/-- C17 at a concrete run: the sample transport delivering a whole frame; after 10 polls the
session is in `XMODEM_RECEIVE_ABORT_TRANSFER`. -/
theorem block_states_unreachable_witness :
    (∃ g' w', pollSeq sampleTimes 10 (sampleGlobals XMODEM_RECEIVE_INITIAL 0 0)
        (frame 1 samplePayload) = some (g', w') ∧
      g'.receive_state ∈ handshakeStates ∧
      g'.receive_state ∉ blockStates) ∧
    (pollSeq sampleTimes 10 (sampleGlobals XMODEM_RECEIVE_INITIAL 0 0)
      (frame 1 samplePayload)).map (fun c => c.1.receive_state)
      = some XMODEM_RECEIVE_ABORT_TRANSFER :=
  ⟨block_states_unreachable (sampleGlobals XMODEM_RECEIVE_UNKNOWN 0 0)
    (sampleGlobals XMODEM_RECEIVE_INITIAL 0 0) (frame 1 samplePayload) sampleTimes 10 rfl,
   by decide⟩

/-! ### C11 -/

/-- No poll calls the write capability. -/
theorem process_no_write (current_time : Nat) (g : Globals W P) (w : W) (o : Outcome W P)
    (hpoll : xmodem_receive_process current_time g w = some o) :
    o.calls.filter Call.isWrite = [] := by
  rcases process_calls current_time g w o hpoll with h | ⟨_, h | ⟨r, b, s, h⟩⟩ <;>
    rw [h] <;> simp [Call.isWrite]

set_option maxRecDepth 100000 in
/-- C11, the claim fails: with N = 1 and a transport that delivers one well-formed frame
(SOH, id 1, complement 254, 128 payload bytes, CRC-16/XMODEM big-endian), the initialised
session driven by 50 polls never calls the write capability, where the claim has exactly one
call; the run reads the SOH only and ends in `XMODEM_RECEIVE_ABORT_TRANSFER` with the other
132 bytes of the frame unread. -/
theorem well_formed_frame_not_forwarded :
    xmodem_receive_init (sampleGlobals XMODEM_RECEIVE_UNKNOWN 0 0)
      = (true, sampleGlobals XMODEM_RECEIVE_INITIAL 0 0) ∧
    (frame 1 samplePayload).take 3 = [SOH, 1, 254] ∧
    ((frame 1 samplePayload).drop 3).take 128 = samplePayload ∧
    (frame 1 samplePayload).drop 131
      = [crc16_xmodem samplePayload / 256, crc16_xmodem samplePayload % 256] ∧
    ((callsAfter sampleTimes 50 (sampleGlobals XMODEM_RECEIVE_INITIAL 0 0)
      (frame 1 samplePayload)).filter Call.isWrite).length = 0 ∧
    callsAfter sampleTimes 50 (sampleGlobals XMODEM_RECEIVE_INITIAL 0 0)
      (frame 1 samplePayload) = [Call.is_inbound_empty false, Call.read_data 1 true SOH 1] ∧
    (pollSeq sampleTimes 50 (sampleGlobals XMODEM_RECEIVE_INITIAL 0 0)
      (frame 1 samplePayload)).map (fun c => (c.1.receive_state, c.2.length))
      = some (XMODEM_RECEIVE_ABORT_TRANSFER, 132) := by
  refine ⟨rfl, by decide, rfl, rfl, by decide, by decide, by decide⟩

/-- C11 as amended: for every transport, in particular one that delivers N well-formed
frames with consecutive ids, and every schedule of poll times, driving a session by any
number of polls results in no call of the write (sink) capability: no payload is
forwarded. -/
theorem no_payload_forwarded (t : Nat → Nat) (n : Nat) (g : Globals W P) (w : W) :
    (callsAfter t n g w).filter Call.isWrite = [] := by
  induction n generalizing t g w with
  | zero => rfl
  | succ n ih =>
    unfold callsAfter
    cases ho : xmodem_receive_process (t 0) g w with
    | none => rfl
    | some o =>
      simp only [List.filter_append, process_no_write (t 0) g w o ho, List.nil_append]
      exact ih _ _ _

/-! ### Call sequences -/

/-- Running a sequence followed by one more call is running the sequence and then the
call. -/
theorem runOps_snoc (ops : List (Op W)) (op : Op W) (g0 g : Globals W P) (w0 w : W)
    (hrun : runOps (ops ++ [op]) g0 w0 = some (g, w)) :
    ∃ g1 w1, runOps ops g0 w0 = some (g1, w1) ∧ op.exec g1 w1 = some (g, w) := by
  induction ops generalizing g0 w0 with
  | nil =>
    refine ⟨g0, w0, rfl, ?_⟩
    simp only [List.nil_append, runOps] at hrun
    cases he : op.exec g0 w0 with
    | none => simp [he] at hrun
    | some c => simpa [he] using hrun
  | cons a ops ih =>
    simp only [List.cons_append, runOps] at hrun ⊢
    cases he : a.exec g0 w0 with
    | none => simp [he] at hrun
    | some c =>
      simp only [he] at hrun ⊢
      exact ih c.1 c.2 hrun

/-- The calls after the last `xmodem_receive_init`, for a sequence with one more call. -/
theorem opsAfterLastInit_snoc (ops : List (Op W)) (op : Op W) :
    opsAfterLastInit (ops ++ [op]) =
      if op.isInit = true then [] else opsAfterLastInit ops ++ [op] := by
  unfold opsAfterLastInit
  cases h : op.isInit <;> simp [List.takeWhile_cons, h]

/-- A sequence that ends with `xmodem_receive_init` has no setter after its last
`xmodem_receive_init`. -/
theorem noSetterAfterLastInit_snoc_init (ops : List (Op W)) (op : Op W)
    (hop : op.isInit = true) : noSetterAfterLastInit (ops ++ [op]) = true := by
  simp [noSetterAfterLastInit, opsAfterLastInit_snoc, hop]

/-- A further call that is neither `xmodem_receive_init` nor a setter does not change
whether a setter is called after the last `xmodem_receive_init`. -/
theorem noSetterAfterLastInit_snoc_other (ops : List (Op W)) (op : Op W)
    (hinit : op.isInit = false) (hset : op.isSetter = false) :
    noSetterAfterLastInit (ops ++ [op]) = noSetterAfterLastInit ops := by
  simp [noSetterAfterLastInit, opsAfterLastInit_snoc, hinit, hset]

/-- A sequence with an `xmodem_receive_init` that ends with a setter has a setter after its
last `xmodem_receive_init`. -/
theorem noSetterAfterLastInit_snoc_setter (ops : List (Op W)) (op : Op W)
    (hinit : op.isInit = false) (hset : op.isSetter = true)
    (hany : ops.any Op.isInit = true) :
    noSetterAfterLastInit (ops ++ [op]) = false := by
  simp only [noSetterAfterLastInit, opsAfterLastInit_snoc, hinit, List.any_append, hany]
  simp [hset]

/-- After a sequence of calls that begins with `xmodem_receive_init` or
`xmodem_receive_cleanup`, the session is in a handshake state; and when it is in
`XMODEM_RECEIVE_INITIAL` or the handshake is in progress, the sequence has an
`xmodem_receive_init`, and all four capabilities are installed provided no setter was called
after the last one. -/
theorem runOps_capabilities (ops : List (Op W)) :
    ∀ (g0 g : Globals W P) (w0 w : W),
      beginsWithInitOrCleanup ops = true →
      runOps ops g0 w0 = some (g, w) →
      g.receive_state ∈ handshakeStates ∧
      (handshaking g.receive_state = true ∨ g.receive_state = XMODEM_RECEIVE_INITIAL →
        ops.any Op.isInit = true ∧
        (noSetterAfterLastInit ops = true → allPresent g = true)) := by
  induction ops using List.reverseRecOn with
  | nil =>
    intro g0 g w0 w hb _
    simp [beginsWithInitOrCleanup] at hb
  | append_singleton ops op ih =>
    intro g0 g w0 w hb hrun
    obtain ⟨g1, w1, hrun1, hexec⟩ := runOps_snoc ops op g0 g w0 w hrun
    have hprev : ops ≠ [] →
        g1.receive_state ∈ handshakeStates ∧
        (handshaking g1.receive_state = true ∨ g1.receive_state = XMODEM_RECEIVE_INITIAL →
          ops.any Op.isInit = true ∧
          (noSetterAfterLastInit ops = true → allPresent g1 = true)) := by
      intro hne
      apply ih g0 g1 w0 w1 _ hrun1
      cases ops with
      | nil => exact absurd rfl hne
      | cons a l => simpa [beginsWithInitOrCleanup] using hb
    cases op with
    | init =>
      simp only [Op.exec, Option.some.injEq, Prod.mk.injEq] at hexec
      obtain ⟨rfl, rfl⟩ := hexec
      by_cases hc : allPresent g1 = true
      · have h1 : xmodem_receive_init g1 =
            (true, { g1 with receive_state := XMODEM_RECEIVE_INITIAL }) := by
          simp only [allPresent] at hc
          simp only [xmodem_receive_init, hc, if_true]
        rw [h1]
        refine ⟨by simp [handshakeStates], fun _ => ⟨by simp [Op.isInit], fun _ => ?_⟩⟩
        simpa [allPresent] using hc
      · have h1 : xmodem_receive_init g1 =
            (false, { g1 with receive_state := XMODEM_RECEIVE_UNKNOWN }) := by
          simp only [allPresent] at hc
          simp only [xmodem_receive_init, hc, if_false]
          simp
        rw [h1]
        refine ⟨by simp [handshakeStates], fun h => ?_⟩
        simp [handshaking] at h
    | cleanup =>
      simp only [Op.exec, Option.some.injEq, Prod.mk.injEq] at hexec
      obtain ⟨rfl, rfl⟩ := hexec
      refine ⟨by simp [xmodem_receive_cleanup, handshakeStates], fun h => ?_⟩
      simp [xmodem_receive_cleanup, handshaking] at h
    | process current_time =>
      have hne : ops ≠ [] := by
        rintro rfl
        simp [beginsWithInitOrCleanup, Op.isInit, Op.isCleanup] at hb
      obtain ⟨hs1, hact1⟩ := hprev hne
      simp only [Op.exec] at hexec
      cases ho : xmodem_receive_process current_time g1 w1 with
      | none => simp [ho] at hexec
      | some o =>
        simp only [ho, Option.some.injEq, Prod.mk.injEq] at hexec
        obtain ⟨rfl, rfl⟩ := hexec
        obtain ⟨hs, hni, hback⟩ := process_handshake_states current_time g1 w1 o ho hs1
        obtain ⟨e1, e2, e3, e4⟩ := process_callbacks current_time g1 w1 o ho
        refine ⟨hs, fun h => ?_⟩
        have hact : handshaking g1.receive_state = true ∨
            g1.receive_state = XMODEM_RECEIVE_INITIAL := by
          rcases h with h | h
          · exact hback h
          · exact absurd h hni
        obtain ⟨hany, hall⟩ := hact1 hact
        refine ⟨by simp [hany], fun hclean => ?_⟩
        rw [noSetterAfterLastInit_snoc_other ops (Op.process current_time) rfl rfl] at hclean
        have := hall hclean
        simpa [allPresent, e1, e2, e3, e4] using this
    | set_callback_write callback =>
      have hne : ops ≠ [] := by
        rintro rfl
        simp [beginsWithInitOrCleanup, Op.isInit, Op.isCleanup] at hb
      obtain ⟨hs1, hact1⟩ := hprev hne
      simp only [Op.exec, Option.some.injEq, Prod.mk.injEq] at hexec
      obtain ⟨rfl, rfl⟩ := hexec
      refine ⟨hs1, fun h => ?_⟩
      obtain ⟨hany, _⟩ := hact1 h
      refine ⟨by simp [hany], fun hclean => ?_⟩
      rw [noSetterAfterLastInit_snoc_setter ops (Op.set_callback_write callback) rfl rfl hany] at hclean
      cases hclean
    | set_callback_read callback =>
      have hne : ops ≠ [] := by
        rintro rfl
        simp [beginsWithInitOrCleanup, Op.isInit, Op.isCleanup] at hb
      obtain ⟨hs1, hact1⟩ := hprev hne
      simp only [Op.exec, Option.some.injEq, Prod.mk.injEq] at hexec
      obtain ⟨rfl, rfl⟩ := hexec
      refine ⟨hs1, fun h => ?_⟩
      obtain ⟨hany, _⟩ := hact1 h
      refine ⟨by simp [hany], fun hclean => ?_⟩
      rw [noSetterAfterLastInit_snoc_setter ops (Op.set_callback_read callback) rfl rfl hany] at hclean
      cases hclean
    | set_callback_is_outbound_full callback =>
      have hne : ops ≠ [] := by
        rintro rfl
        simp [beginsWithInitOrCleanup, Op.isInit, Op.isCleanup] at hb
      obtain ⟨hs1, hact1⟩ := hprev hne
      simp only [Op.exec, Option.some.injEq, Prod.mk.injEq] at hexec
      obtain ⟨rfl, rfl⟩ := hexec
      refine ⟨hs1, fun h => ?_⟩
      obtain ⟨hany, _⟩ := hact1 h
      refine ⟨by simp [hany], fun hclean => ?_⟩
      rw [noSetterAfterLastInit_snoc_setter ops (Op.set_callback_is_outbound_full callback) rfl rfl hany] at hclean
      cases hclean
    | set_callback_is_inbound_empty callback =>
      have hne : ops ≠ [] := by
        rintro rfl
        simp [beginsWithInitOrCleanup, Op.isInit, Op.isCleanup] at hb
      obtain ⟨hs1, hact1⟩ := hprev hne
      simp only [Op.exec, Option.some.injEq, Prod.mk.injEq] at hexec
      obtain ⟨rfl, rfl⟩ := hexec
      refine ⟨hs1, fun h => ?_⟩
      obtain ⟨hany, _⟩ := hact1 h
      refine ⟨by simp [hany], fun hclean => ?_⟩
      rw [noSetterAfterLastInit_snoc_setter ops (Op.set_callback_is_inbound_empty callback) rfl rfl hany] at hclean
      cases hclean

/-- After a sequence of calls that begins with `xmodem_receive_init` or
`xmodem_receive_cleanup`, the session is in none of the six block states; in particular
the branches of `XMODEM_RECEIVE_READ_BLOCK` and `XMODEM_RECEIVE_READ_BLOCK_TIMEOUT` (source
lines 167-205) are never taken by a later poll. -/
theorem runOps_no_block_state (ops : List (Op W)) (g0 g : Globals W P) (w0 w : W)
    (hbegin : beginsWithInitOrCleanup ops = true)
    (hrun : runOps ops g0 w0 = some (g, w)) :
    g.receive_state ∉ blockStates := by
  have hs := (runOps_capabilities ops g0 g w0 w hbegin hrun).1
  revert hs
  cases g.receive_state <;> simp [handshakeStates, blockStates]

/-! ### C19 -/

end XmodemReceiver
